import Mathlib

/-!
Verification of the IEMS counsellor event system against its specification.

Shallow embedding conventions:
* Calendar dates (YYYY-MM-DD strings in the source) are modelled as natural
  numbers (day indices); string comparison of ISO dates coincides with the
  numeric order, and the "next calendar day" is `d + 1`.
* Timestamps used by the notification store (seconds) are a second clock,
  also natural numbers; the one-hour dedup window is 3600 seconds.
* The SQLite tables are lists of records inside a `DBState`; SQL queries
  become list filters and folds, row order following the source order where
  it matters.
* JavaScript truthiness on nullable columns is modelled explicitly
  (`jsOr`, `strTruthy`, `idTruthy`).
-/

namespace IEMS

/-! ## Date-range utilities (utils.js and routes/admin.js helpers) -/

/-- `getDatesInRange` from routes/admin.js: all days from `s` to `e`
inclusive; empty when `s > e`. -/
def getDatesInRange (s e : Nat) : List Nat :=
  List.range' s (e + 1 - s)

/-- `overlapCondition` from utils.js: closed-interval overlap test
`NOT (aEnd < bStart OR aStart > bEnd)`. -/
def overlaps (aStart aEnd bStart bEnd : Nat) : Bool :=
  !(decide (aEnd < bStart) || decide (aStart > bEnd))

/-- `datesOverlap` from services/notificationEngine.js (same test). -/
def datesOverlap (start1 end1 start2 end2 : Nat) : Bool :=
  !(decide (end1 < start2) || decide (start1 > end2))

/-- The loop of `formatDateRanges`: given the run start, the previous date
and the remaining sorted dates, close the current run whenever the next
date is not the expected consecutive day. -/
def compressRuns (start prev : Nat) : List Nat → List (Nat × Nat)
  | [] => [(start, prev)]
  | curr :: rest =>
      if curr = prev + 1 then compressRuns start curr rest
      else (start, prev) :: compressRuns curr curr rest

/-- `formatDateRanges` from routes/admin.js, up to rendering: the source
dedups (`new Set`), sorts, and splits into maximal consecutive runs; a run
`(a, b)` is rendered as `a` when `a = b` and as `a -> b` otherwise.  We
keep the runs themselves, the rendering being pure display. -/
def formatDateRanges (l : List Nat) : List (Nat × Nat) :=
  match List.insertionSort (· ≤ ·) l.dedup with
  | [] => []
  | h :: t => compressRuns h h t

/-- The set of days denoted by a rendered range list. -/
def coveredDays (rs : List (Nat × Nat)) : List Nat :=
  rs.flatMap fun p => getDatesInRange p.1 p.2

/-! ## Data model (schema.sql plus the db.js migrations) -/

/-- JavaScript `x || dflt` on a nullable text column: null and the empty
string are falsy. -/
def jsOr (x : Option String) (dflt : String) : String :=
  match x with
  | Option.none => dflt
  | some s => if s = "" then dflt else s

/-- JavaScript `String.toUpperCase` (ASCII, as used on the enum values),
written over the character list so that it evaluates in the kernel. -/
def jsToUpper (s : String) : String :=
  String.mk (s.data.map Char.toUpper)

/-- JavaScript truthiness of an optional string (null and "" are falsy). -/
def strTruthy (x : Option String) : Bool :=
  match x with
  | Option.none => false
  | some s => s ≠ ""

/-- JavaScript truthiness of an optional numeric id (null and 0 are falsy). -/
def idTruthy (x : Option Nat) : Bool :=
  match x with
  | Option.none => false
  | some n => n ≠ 0

/-- A row of `counsellors`. -/
structure Counsellor where
  id : Nat
  username : String
  full_name : String
  is_active : Bool
deriving Repr, DecidableEq

/-- A row of `submissions` (with the columns added by the db.js
migrations: `payment_status`, `event_status`, preset ids). -/
structure Submission where
  id : Nat
  start_date : Nat
  end_date : Nat
  organizer : String
  organizer_id : Option Nat
  event_name_id : Option Nat
  event_type_id : Option Nat
  city : String
  country : String
  proposed_staffing : Option String
  remarks : Option String
  sent_by_counsellor_id : Option Nat
  payment_status : String
  status : String
  event_status : String
  submitted_by : String
  confirmed_at : Option Nat
  created_at : Nat
  updated_at : Nat
deriving Repr, DecidableEq

/-- A row of `submission_assignments`. -/
structure Assignment where
  submission_id : Nat
  counsellor_id : Nat
deriving Repr, DecidableEq

/-- A row of `submission_suggestions`. -/
structure Suggestion where
  submission_id : Nat
  counsellor_id : Nat
deriving Repr, DecidableEq

/-- A row of `duplicate_dismissals`. -/
structure Dismissal where
  submission_id_1 : Nat
  submission_id_2 : Nat
deriving Repr, DecidableEq

/-- The structured `metadata` JSON attached to a notification. -/
inductive NotifMeta where
  | none
  | overload (counsellor_id : Nat) (event_count : Nat)
  | duplicate (new_submission_id : Nat) (existing_submission_id : Nat) (score : Rat)
  | weekly (total_upcoming : Nat) (unstaffed_events : Nat) (aging_pending : Nat)
      (next_week_events : Nat) (active_counsellors : Nat)
deriving Repr, DecidableEq

/-- A row of `notifications`; `created_at` is on the seconds clock. -/
structure Notification where
  nid : Nat
  ntype : String
  priority : String
  title : String
  message : String
  meta : NotifMeta
  target_role : String
  target_user : Option String
  related_submission_id : Option Nat
  nstatus : String
  created_at : Nat
deriving Repr, DecidableEq

/-- A row of `activity_log` (details JSON elided; only action and actor
feed anomaly detection). -/
structure ActivityEntry where
  action : String
  username : String
deriving Repr, DecidableEq

/-- The relational store: one list per table, plus the AUTOINCREMENT
cursors for submissions and notifications. -/
structure DBState where
  submissions : List Submission
  assignments : List Assignment
  suggestions : List Suggestion
  counsellors : List Counsellor
  organizers : List (Nat × String)
  event_names : List (Nat × String)
  event_types : List (Nat × String)
  notifications : List Notification
  dismissals : List Dismissal
  settings : List (String × String)
  activity_log : List ActivityEntry
  nextSubmissionId : Nat
  nextNotificationId : Nat
deriving Repr, DecidableEq

/-- `getSetting` from notificationEngine.js. -/
def getSetting (st : DBState) (key : String) : Option String :=
  (st.settings.find? (fun kv => kv.1 == key)).map (·.2)

/-- `isSettingEnabled` from notificationEngine.js. -/
def isSettingEnabled (st : DBState) (key : String) : Bool :=
  getSetting st key == some "true" || getSetting st key == some "1"

/-- The counsellor ids assigned to a submission. -/
def assignedTo (st : DBState) (id : Nat) : List Nat :=
  (st.assignments.filter (fun a => a.submission_id == id)).map (·.counsellor_id)

/-! ## Availability calculator (GET /counsellors/availability) -/

/-- The per-counsellor conflict query: confirmed submissions assigned to
the counsellor whose own date range overlaps the window, minus the
optional excluded submission (the `if (excludeId)` truthiness guard of the
source is `idTruthy`). -/
def conflictsFor (st : DBState) (cid qs qe : Nat) (excludeId : Option Nat) :
    List Submission :=
  st.submissions.filter (fun s =>
    st.assignments.any (fun a => a.submission_id == s.id && a.counsellor_id == cid)
    && s.status == "confirmed"
    && overlaps s.start_date s.end_date qs qe
    && (if idTruthy excludeId then s.id != excludeId.getD 0 else true))

/-- One output row of the availability endpoint. -/
structure AvailRow where
  counsellor : Counsellor
  status : String
  available_ranges : List (Nat × Nat)
  conflicts : List Submission
deriving Repr, DecidableEq

/-- The busy-day `Set` accumulated by the availability route.  The source
inserts, for each conflict, its days that belong to `requestedSet`; we
represent that set canonically as the sublist of the (duplicate-free)
requested dates covered by some conflict — same members, same size. -/
def busyDatesCode (st : DBState) (cid qs qe : Nat) (excludeId : Option Nat) :
    List Nat :=
  (getDatesInRange qs qe).filter (fun d =>
    (conflictsFor st cid qs qe excludeId).any
      (fun s => decide (s.start_date ≤ d) && decide (d ≤ s.end_date)))

/-- `requestedDates.filter(d => !busySet.has(d))` from the partial branch. -/
def availableDatesCode (st : DBState) (cid qs qe : Nat) (excludeId : Option Nat) :
    List Nat :=
  (getDatesInRange qs qe).filter
    (fun d => !((busyDatesCode st cid qs qe excludeId).contains d))

/-- The body of the `counsellors.map` callback in
GET /counsellors/availability: classify via busy count, and in the
partial case report the compressed free ranges. -/
def availabilityRow (st : DBState) (c : Counsellor) (qs qe : Nat)
    (excludeId : Option Nat) : AvailRow :=
  if (busyDatesCode st c.id qs qe excludeId).length == 0 then
    ⟨c, "available", [], conflictsFor st c.id qs qe excludeId⟩
  else if (getDatesInRange qs qe).length ≤ (busyDatesCode st c.id qs qe excludeId).length then
    ⟨c, "busy", [], conflictsFor st c.id qs qe excludeId⟩
  else
    ⟨c, "partially_available",
      formatDateRanges (availableDatesCode st c.id qs qe excludeId),
      conflictsFor st c.id qs qe excludeId⟩

/-- Spec-side busy-day set, following the claim wording: the requested
days that fall inside some confirmed submission assigned to the
counsellor, overlapping the window and distinct from the excluded id. -/
def busyDaysSpec (st : DBState) (cid qs qe : Nat) (excludeId : Option Nat) :
    List Nat :=
  (getDatesInRange qs qe).filter (fun d =>
    st.submissions.any (fun s =>
      (st.assignments.any (fun a => a.submission_id == s.id && a.counsellor_id == cid)
        && s.status == "confirmed"
        && overlaps s.start_date s.end_date qs qe
        && (if idTruthy excludeId then s.id != excludeId.getD 0 else true))
      && (decide (s.start_date ≤ d) && decide (d ≤ s.end_date))))

/-- A state stripped to its confirmed submissions, used to express that
pending and not_applicable submissions never contribute busy days. -/
def confirmedOnly (st : DBState) : DBState :=
  { st with submissions := st.submissions.filter (fun s => s.status == "confirmed") }

/-- An empty store (all tables empty, AUTOINCREMENT cursors at 1). -/
def emptyState : DBState :=
  ⟨[], [], [], [], [], [], [], [], [], [], [], 1, 1⟩

/-- A sample active counsellor. -/
def exCounsellor : Counsellor := ⟨1, "jade", "Jade P", true⟩

/-- A sample submission with the given id, dates and decision status. -/
def exSubmission (id sd ed : Nat) (stat : String) : Submission :=
  ⟨id, sd, ed, "Org A | Fair | Expo", some 1, some 1, some 1, "City", "FR",
    Option.none, Option.none, Option.none, "UNPAID", stat, "ONGOING", "jade",
    Option.none, 0, 0⟩

/-- A store in which counsellor 1 is confirmed on day 5 only, so a query
for days 5..7 classifies them as partially available. -/
def partialState : DBState :=
  { emptyState with
      submissions := [exSubmission 1 5 5 "confirmed"]
      assignments := [⟨1, 1⟩]
      counsellors := [exCounsellor] }

/-! ## Staffing state machine (routes/admin.js, routes/counsellor.js) -/

/-- JavaScript `s || dflt` on a non-null text column ("" is falsy). -/
def jsOrStr (s dflt : String) : String :=
  if s = "" then dflt else s

/-- The `selected` rows of the finalize handler: active counsellors whose
id is among the requested ids (SQL `IN` dedups via the table key). -/
def selectedCounsellors (st : DBState) (counsellor_ids : List Nat) : List Counsellor :=
  st.counsellors.filter (fun c => c.is_active && counsellor_ids.contains c.id)

/-- PUT /submissions/:id/finalize: validate, then atomically replace the
full assignment set and stamp the submission confirmed.  `now` is the
`datetime(now)` timestamp. -/
def finalize (st : DBState) (id : Nat) (counsellor_ids : List Nat) (now : Nat) :
    Except String DBState :=
  if counsellor_ids.isEmpty then
    Except.error "At least 1 counsellor must be selected."
  else
    match st.submissions.find? (fun s => s.id == id) with
    | Option.none => Except.error "Submission not found."
    | some sub =>
      if jsOrStr sub.event_status "ONGOING" == "COMPLETED"
          || jsOrStr sub.event_status "ONGOING" == "CANCELLED" then
        Except.error "Cannot change staffing for a completed or cancelled event."
      else
        if (selectedCounsellors st counsellor_ids).length ≠ counsellor_ids.length then
          Except.error "One or more selected counsellors are not active / not found."
        else
          Except.ok { st with
            assignments :=
              st.assignments.filter (fun a => a.submission_id ≠ id)
                ++ (selectedCounsellors st counsellor_ids).map (fun c => ⟨id, c.id⟩),
            submissions := st.submissions.map (fun s =>
              if s.id = id then
                { s with status := "confirmed", confirmed_at := some now,
                         updated_at := now }
              else s) }

/-- The request body of PUT /submissions/:id/meta; an outer `none` means
the field was absent from the request (JS `undefined`). -/
structure MetaBody where
  sent_by_counsellor_id : Option (Option Nat)
  payment_status : Option String
  event_status : Option String
  remarks : Option String

def allowedPay : List String := ["PAID", "UNPAID", "FREE"]

def allowedStatus : List String := ["ONGOING", "COMPLETED", "CANCELLED", "POSTPONED"]

/-- The `newSent` local of PUT /submissions/:id/meta: keep the stored
value when the field is absent. -/
def metaNewSent (row : Submission) (body : MetaBody) : Option Nat :=
  match body.sent_by_counsellor_id with
  | Option.none => row.sent_by_counsellor_id
  | some v => v

/-- The `newPay` local: default from the row, validate a supplied value
against the allow-list (`none` = validation failure). -/
def metaNewPay (row : Submission) (body : MetaBody) : Option String :=
  match body.payment_status with
  | Option.none => some (jsOrStr row.payment_status "UNPAID")
  | some v => if allowedPay.contains (jsToUpper v) then some (jsToUpper v) else Option.none

/-- The `newStatus` local, same shape as `metaNewPay`. -/
def metaNewStatus (row : Submission) (body : MetaBody) : Option String :=
  match body.event_status with
  | Option.none => some (jsOrStr row.event_status "ONGOING")
  | some v => if allowedStatus.contains (jsToUpper v) then some (jsToUpper v) else Option.none

/-- The `newRemarks` local. -/
def metaNewRemarks (row : Submission) (body : MetaBody) : String :=
  match body.remarks with
  | Option.none => jsOr row.remarks ""
  | some v => v

/-- The write phase of PUT /submissions/:id/meta: when the new event
status is CANCELLED or POSTPONED, the assignment rows for the submission
are deleted and `status` is forced to not_applicable. -/
def metaApply (st : DBState) (id : Nat) (row : Submission) (body : MetaBody)
    (now : Nat) (newPay newStatus : String) : DBState :=
  let cancelled := newStatus == "CANCELLED" || newStatus == "POSTPONED"
  { st with
    assignments :=
      if cancelled then st.assignments.filter (fun a => a.submission_id ≠ id)
      else st.assignments,
    submissions := st.submissions.map (fun s =>
      if s.id = id then
        { s with sent_by_counsellor_id := metaNewSent row body,
                 payment_status := newPay,
                 event_status := newStatus,
                 remarks := some (metaNewRemarks row body),
                 status := if cancelled then "not_applicable" else s.status,
                 updated_at := now }
      else s) }

/-- PUT /submissions/:id/meta: merge the supplied fields over the current
row (validation failures reject with no write). -/
def metaUpdate (st : DBState) (id : Nat) (body : MetaBody) (now : Nat) :
    Except String DBState :=
  match st.submissions.find? (fun s => s.id == id) with
  | Option.none => Except.error "Submission not found."
  | some row =>
    match metaNewPay row body with
    | Option.none => Except.error "Invalid payment status."
    | some newPay =>
      match metaNewStatus row body with
      | Option.none => Except.error "Invalid event status."
      | some newStatus => Except.ok (metaApply st id row body now newPay newStatus)

/-- The request body of the counsellor PUT /submissions/:id edit. -/
structure EditBody where
  start_date : Option Nat
  end_date : Option Nat
  organizer : Option String
  city : Option String
  country : Option String
  proposed_staffing : Option String
  remarks : Option String
  suggested_ids : List Nat

/-- The write phase of the counsellor edit: replace the content fields,
always reset `status` to pending, and replace the suggestion set
(INSERT OR IGNORE is the dedup); assignments are untouched. -/
def applyCounsellorEdit (st : DBState) (id : Nat) (body : EditBody) (now : Nat) :
    DBState :=
  { st with
    submissions := st.submissions.map (fun s =>
      if s.id = id then
        { s with start_date := body.start_date.getD 0,
                 end_date := body.end_date.getD 0,
                 organizer := body.organizer.getD "",
                 city := body.city.getD "",
                 country := body.country.getD "",
                 proposed_staffing := body.proposed_staffing,
                 remarks := body.remarks,
                 status := "pending",
                 updated_at := now }
      else s),
    suggestions :=
      st.suggestions.filter (fun g => g.submission_id ≠ id)
        ++ body.suggested_ids.dedup.map (fun cid => ⟨id, cid⟩) }

/-- Counsellor PUT /submissions/:id: content edit, owner-only; a confirmed
submission may be edited only strictly before its start date. -/
def counsellorUpdate (st : DBState) (id : Nat) (username : String)
    (body : EditBody) (today now : Nat) : Except String DBState :=
  if body.start_date.isNone || body.end_date.isNone
      || !(strTruthy body.organizer) || !(strTruthy body.city)
      || !(strTruthy body.country) then
    Except.error "START DATE, END DATE, ORGANIZER, CITY, and COUNTRY are required."
  else if body.end_date.getD 0 < body.start_date.getD 0 then
    Except.error "End date cannot be before Start date."
  else
    match st.submissions.find? (fun s => s.id == id) with
    | Option.none => Except.error "Submission not found."
    | some sub =>
      if sub.submitted_by ≠ username then Except.error "Forbidden."
      else if sub.status == "confirmed" && decide (sub.start_date ≤ today) then
        Except.error "Cannot edit a confirmed event on or after the start date."
      else
        Except.ok (applyCounsellorEdit st id body now)

/-- A store with three active counsellors and one pending submission,
used to exercise finalize and re-finalize. -/
def staffState : DBState :=
  { emptyState with
      counsellors := [⟨1, "a", "A", true⟩, ⟨2, "b", "B", true⟩, ⟨3, "c", "C", true⟩]
      submissions := [exSubmission 1 5 6 "pending"] }

/-- The store after finalizing submission 1 with counsellors 1 and 2. -/
def staffState1 : DBState :=
  ((finalize staffState 1 [1, 2] 10).toOption).getD emptyState

/-- The store after re-finalizing submission 1 with counsellor 3 only. -/
def staffState2 : DBState :=
  ((finalize staffState1 1 [3] 11).toOption).getD emptyState

/-- A body that sets the event status to CANCELLED and nothing else. -/
def cancelBody : MetaBody :=
  ⟨Option.none, Option.none, some "CANCELLED", Option.none⟩

/-- The store after cancelling submission 1 of `staffState1`. -/
def cancelledState : DBState :=
  ((metaUpdate staffState1 1 cancelBody 12).toOption).getD emptyState

/-- A full edit body for the counsellor update endpoint. -/
def editBody : EditBody :=
  ⟨some 6, some 7, some "Org B", some "Lyon", some "FR", Option.none, Option.none, []⟩

/-- A store holding one confirmed submission of counsellor jade starting
on day 6, with an assignment, for the edit-guard witness (today = 5). -/
def editState : DBState :=
  { emptyState with
      counsellors := [exCounsellor]
      submissions := [exSubmission 1 6 7 "confirmed"]
      assignments := [⟨1, 1⟩] }

/-! ## Notification engine (services/notificationEngine.js) -/

/-- JavaScript `String.toLowerCase` (ASCII), kernel-computable. -/
def jsToLower (s : String) : String :=
  String.mk (s.data.map Char.toLower)

/-- JavaScript truthiness of a non-null string ("" is falsy). -/
def strTruthyS (s : String) : Bool :=
  s ≠ ""

/-- One inner iteration of the `levenshteinDistance` DP: given the
remaining characters of `str2`, the previous row aligned so that its head
is `dp[i-1][j-1]` (diagonal) and its second entry `dp[i-1][j]` (above),
and the last computed entry `dp[i][j-1]` (left), produce the entries
`dp[i][1..n]` of the current row. -/
def levRowGo (x : Char) : List Char → List Nat → Nat → List Nat
  | y :: ys, diag :: above :: rest, left =>
      (if x = y then diag else 1 + min above (min left diag))
        :: levRowGo x ys (above :: rest)
            (if x = y then diag else 1 + min above (min left diag))
  | _, _, _ => []

/-- `levenshteinDistance`: classic single-character insert, delete,
substitute edit distance, filling the DP table row by row exactly as the
source loops do (`dp[0][j] = j`, `dp[i][0] = i`, then the recurrence);
the distance is the last entry of the final row. -/
def levenshteinDistance (str1 str2 : List Char) : Nat :=
  ((str1.foldl (fun acc x =>
      ((acc.2 + 1) :: levRowGo x str2 acc.1 (acc.2 + 1), acc.2 + 1))
    (List.range (str2.length + 1), 0)).1).getLastD 0

/-- `Math.round(score * 100) / 100` (JS rounds half towards plus
infinity), on exact rationals. -/
def round2 (q : Rat) : Rat :=
  ((Int.floor (q * 100 + 1 / 2) : Int) : Rat) / 100

/-- The city factor of `calculateSimilarity` on the lowered city names:
normalized edit-distance similarity `1 - distance / maxLen` at least 0.8
(zero-length strings score 0). -/
def citySimilar (city1 city2 : String) : Bool :=
  let distance := levenshteinDistance city1.data city2.data
  let maxLen := max city1.length city2.length
  let citySimilarity : Rat :=
    if 0 < maxLen then 1 - (distance : Rat) / (maxLen : Rat) else 0
  decide ((8 : Rat) / 10 ≤ citySimilarity)

/-- `calculateSimilarity` from notificationEngine.js: additive weighted
factors; organizer id identity and organizer-name fallback are mutually
exclusive; the score is rounded to two decimals. -/
def calculateSimilarity (sub1 sub2 : Submission) : Rat × List String :=
  let p0 : Rat × List String := (0, [])
  let p1 :=
    if idTruthy sub1.organizer_id && idTruthy sub2.organizer_id
        && (sub1.organizer_id == sub2.organizer_id) then
      (p0.1 + 35 / 100, p0.2 ++ ["Same organizer"])
    else if strTruthyS sub1.organizer && strTruthyS sub2.organizer
        && (jsToLower sub1.organizer == jsToLower sub2.organizer) then
      (p0.1 + 30 / 100, p0.2 ++ ["Similar organizer name"])
    else p0
  let p2 :=
    if datesOverlap sub1.start_date sub1.end_date sub2.start_date sub2.end_date then
      (p1.1 + 25 / 100, p1.2 ++ ["Overlapping dates"])
    else p1
  let p3 :=
    if strTruthyS sub1.country && strTruthyS sub2.country
        && (jsToLower sub1.country == jsToLower sub2.country) then
      (p2.1 + 15 / 100, p2.2 ++ ["Same country"])
    else p2
  let p4 :=
    if strTruthyS sub1.city && strTruthyS sub2.city then
      if citySimilar (jsToLower sub1.city) (jsToLower sub2.city) then
        (p3.1 + 15 / 100, p3.2 ++ ["Similar city"])
      else p3
    else p3
  let p5 :=
    if idTruthy sub1.event_name_id && idTruthy sub2.event_name_id
        && (sub1.event_name_id == sub2.event_name_id) then
      (p4.1 + 10 / 100, p4.2 ++ ["Same event name"])
    else p4
  (round2 p5.1, p5.2)

/-- The row inserted by `createNotification`. -/
def mkNotification (st : DBState) (now : Nat) (ntype priority title message : String)
    (meta : NotifMeta) (targetRole : String) (targetUser : Option String)
    (relatedId : Option Nat) : Notification :=
  ⟨st.nextNotificationId, ntype, priority, title, message, meta, targetRole,
    targetUser, relatedId, "unread", now⟩

/-- `createNotification`: weekly reports first delete every prior
weekly-report row; any other type is suppressed when an unread
notification with the same type, title and related submission was created
within the trailing hour. -/
def createNotification (st : DBState) (now : Nat)
    (ntype priority title message : String) (meta : NotifMeta)
    (targetRole : String) (targetUser : Option String) (relatedId : Option Nat) :
    DBState :=
  if ntype == "weekly_report" then
    { st with
      notifications :=
        (st.notifications.filter (fun n => n.ntype ≠ "weekly_report"))
          ++ [mkNotification st now ntype priority title message meta targetRole
              targetUser relatedId],
      nextNotificationId := st.nextNotificationId + 1 }
  else if st.notifications.any (fun n =>
      n.ntype == ntype && n.title == title && n.nstatus == "unread"
      && n.related_submission_id == relatedId
      && decide (now < n.created_at + 3600)) then
    st
  else
    { st with
      notifications := st.notifications
        ++ [mkNotification st now ntype priority title message meta targetRole
            targetUser relatedId],
      nextNotificationId := st.nextNotificationId + 1 }

/-! ### Counsellor overload (checkCounsellorOverload) -/

/-- The per-counsellor `COUNT(DISTINCT sa.submission_id)` of the overload
query: confirmed, non-completed, non-cancelled assigned submissions
starting within the next 30 days. -/
def overloadEventCount (st : DBState) (today cid : Nat) : Nat :=
  (st.submissions.filter (fun s =>
    st.assignments.any (fun a => a.counsellor_id == cid && a.submission_id == s.id)
    && s.status == "confirmed"
    && s.event_status != "COMPLETED" && s.event_status != "CANCELLED"
    && decide (today ≤ s.start_date) && decide (s.start_date ≤ today + 30))).length

/-- One notification submitted by the overload check. -/
structure OverloadAlert where
  counsellor_id : Nat
  full_name : String
  event_count : Nat
  priority : String
deriving Repr, DecidableEq

/-- The rows of the overload query (`GROUP BY c.id HAVING event_count >=
threshold`; the inner join contributes only counsellors with at least one
qualifying row), with the priority chosen by the source. -/
def overloadAlerts (st : DBState) (today threshold : Nat) : List OverloadAlert :=
  (st.counsellors.filter (fun c =>
      c.is_active && decide (0 < overloadEventCount st today c.id)
      && decide (threshold ≤ overloadEventCount st today c.id))).map
    (fun c => ⟨c.id, c.full_name, overloadEventCount st today c.id,
      if threshold + 2 ≤ overloadEventCount st today c.id then "high" else "medium"⟩)

/-- `checkCounsellorOverload`: submit one staffing warning per overloaded
counsellor (`threshold` is the parsed `counsellor_overload_threshold`
setting, default 5).  Returns the updated store and the submitted alerts;
the message tail listing the events (a GROUP_CONCAT in unspecified SQL
order) is display-only and elided. -/
def checkCounsellorOverload (st : DBState) (now today threshold : Nat) :
    DBState × List OverloadAlert :=
  if !(isSettingEnabled st "staffing_warning_enabled") then (st, [])
  else
    let alerts := overloadAlerts st today threshold
    (alerts.foldl (fun acc a =>
        createNotification acc now "staffing_warning" a.priority
          "Counsellor workload alert"
          (a.full_name ++ " has " ++ toString a.event_count
            ++ " events in the next 30 days.")
          (NotifMeta.overload a.counsellor_id a.event_count) "admin"
          Option.none Option.none)
      st, alerts)

/-! ### Duplicate detection (detectDuplicates) -/

/-- One entry of the `duplicates` array returned by `detectDuplicates`. -/
structure DuplicateHit where
  existingSubmissionId : Nat
  score : Rat
  factors : List String
deriving Repr, DecidableEq

/-- The candidate filter: same country or overlapping dates, excluding
self and cancelled events. -/
def duplicateCandidateFilter (st : DBState) (newSub : Submission) : List Submission :=
  st.submissions.filter (fun s =>
    s.id != newSub.id && s.event_status != "CANCELLED"
    && (s.country == newSub.country
        || (decide (s.start_date ≤ newSub.end_date)
            && decide (newSub.start_date ≤ s.end_date))))

/-- The candidate query: the filtered rows, most recent first, capped at
50 (`ORDER BY created_at DESC LIMIT 50`). -/
def duplicateCandidates (st : DBState) (newSub : Submission) : List Submission :=
  (List.insertionSort (fun a b => b.created_at ≤ a.created_at)
    (duplicateCandidateFilter st newSub)).take 50

/-- The dismissal lookup, in either order of the pair. -/
def isDismissed (st : DBState) (a b : Nat) : Bool :=
  st.dismissals.any (fun d =>
    (d.submission_id_1 == a && d.submission_id_2 == b)
    || (d.submission_id_1 == b && d.submission_id_2 == a))

/-- The loop body of `detectDuplicates`: skip dismissed pairs, then score
and, above threshold, record the hit and submit a notification.  The
dismissal table is never written by the loop, so it is read from the
entry state. -/
def dupStep (st0 : DBState) (now : Nat) (newSub : Submission) (threshold : Rat)
    (acc : DBState × List DuplicateHit) (candidate : Submission) :
    DBState × List DuplicateHit :=
  if isDismissed st0 newSub.id candidate.id then acc
  else if threshold ≤ (calculateSimilarity newSub candidate).1 then
    (createNotification acc.1 now "duplicate_detected"
        (if (9 : Rat) / 10 ≤ (calculateSimilarity newSub candidate).1 then "high"
         else "medium")
        "Possible duplicate event detected"
        ("New submission is similar to existing event "
          ++ toString candidate.id ++ ".")
        (NotifMeta.duplicate newSub.id candidate.id
          (calculateSimilarity newSub candidate).1) "admin"
        Option.none (some newSub.id),
      acc.2 ++ [⟨candidate.id, (calculateSimilarity newSub candidate).1,
        (calculateSimilarity newSub candidate).2⟩])
  else acc

/-- `detectDuplicates` (`threshold` is the parsed `duplicate_threshold`
setting, default 0.7): returns the updated store and the hit list. -/
def detectDuplicates (st : DBState) (now : Nat) (newSubmissionId : Nat)
    (threshold : Rat) : DBState × List DuplicateHit :=
  if !(isSettingEnabled st "duplicate_detection_enabled") then (st, [])
  else
    match st.submissions.find? (fun s => s.id == newSubmissionId) with
    | Option.none => (st, [])
    | some newSub =>
        (duplicateCandidates st newSub).foldl (dupStep st now newSub threshold) (st, [])

/-! ### Weekly report (generateWeeklyReport) -/

/-- The five aggregates of the weekly report. -/
structure WeeklyCounts where
  total_upcoming : Nat
  unstaffed_events : Nat
  aging_pending : Nat
  next_week_events : Nat
  active_counsellors : Nat
deriving Repr, DecidableEq

/-- The aggregate queries of `generateWeeklyReport` (`today` is the day
clock; `-7 days` on the creation timestamp becomes `created_at + 7 <
today`). -/
def weeklyCounts (st : DBState) (today : Nat) : WeeklyCounts :=
  ⟨(st.submissions.filter (fun s =>
      (s.status == "pending" || s.status == "confirmed")
      && s.event_status != "COMPLETED" && s.event_status != "CANCELLED"
      && decide (today ≤ s.start_date) && decide (s.start_date ≤ today + 30))).length,
    (st.submissions.filter (fun s =>
      (s.status == "pending" || s.status == "confirmed")
      && s.event_status != "COMPLETED" && s.event_status != "CANCELLED"
      && decide (today ≤ s.start_date) && decide (s.start_date ≤ today + 30)
      && !(st.assignments.any (fun a => a.submission_id == s.id)))).length,
    (st.submissions.filter (fun s =>
      s.status == "pending" && decide (s.created_at + 7 < today)
      && s.event_status != "CANCELLED")).length,
    (st.submissions.filter (fun s =>
      s.status == "confirmed"
      && s.event_status != "COMPLETED" && s.event_status != "CANCELLED"
      && decide (today ≤ s.start_date) && decide (s.start_date ≤ today + 7))).length,
    (st.counsellors.filter (fun c => c.is_active)).length⟩

/-- `generateWeeklyReport`: build the aggregates and create the single
weekly-report notification (the bullet-point message is summarised by its
counts). -/
def generateWeeklyReport (st : DBState) (now today : Nat) (force : Bool) : DBState :=
  if !force && !(isSettingEnabled st "weekly_report_enabled") then st
  else
    let c := weeklyCounts st today
    createNotification st now "weekly_report"
      (if 5 < c.unstaffed_events || 10 < c.aging_pending then "high" else "medium")
      "Weekly Intelligence Report"
      (toString c.total_upcoming ++ " total events | "
        ++ toString c.unstaffed_events ++ " need staffing | "
        ++ toString c.aging_pending ++ " pending over 7 days | "
        ++ toString c.next_week_events ++ " next week | "
        ++ toString c.active_counsellors ++ " active counsellors")
      (NotifMeta.weekly c.total_upcoming c.unstaffed_events c.aging_pending
        c.next_week_events c.active_counsellors)
      "admin" Option.none Option.none

/-- Whether a notification metadata names the duplicate pair `(a, b)` in
either order. -/
def metaIsPair (m : NotifMeta) (a b : Nat) : Bool :=
  match m with
  | NotifMeta.duplicate x y _ => (x == a && y == b) || (x == b && y == a)
  | _ => false

/-! ## Batch submission creation (POST /submissions/batch) -/

/-- One event of the batch request body. -/
structure BatchEvent where
  start_date : Option Nat
  end_date : Option Nat
  organizer_id : Option Nat
  event_name_id : Option Nat
  event_type_id : Option Nat
  city : Option String
  country : Option String
  proposed_staffing : Option String
  remarks : Option String
deriving Repr, DecidableEq

/-- The per-event validation of the batch loop, returning the error
message pushed for the index, or `none` when the event passes: required
fields (JS truthiness), date ordering, then preset resolution. -/
def validateBatchEvent (st : DBState) (e : BatchEvent) : Option String :=
  if e.start_date.isNone || e.end_date.isNone || !(idTruthy e.organizer_id)
      || !(idTruthy e.event_name_id) || !(idTruthy e.event_type_id)
      || !(strTruthy e.city) || !(strTruthy e.country) then
    some "Missing required fields"
  else if e.end_date.getD 0 < e.start_date.getD 0 then
    some "End date cannot be before Start date"
  else if (st.organizers.find? (fun p => p.1 == e.organizer_id.getD 0)).isNone
      || (st.event_names.find? (fun p => p.1 == e.event_name_id.getD 0)).isNone
      || (st.event_types.find? (fun p => p.1 == e.event_type_id.getD 0)).isNone then
    some "Invalid preset selection"
  else Option.none

/-- The preset name looked up for the organizer display column. -/
def presetName (l : List (Nat × String)) (id : Nat) : String :=
  ((l.find? (fun p => p.1 == id)).map (fun p => p.2)).getD ""

/-- The submission row inserted for a valid batch event (`status =
pending`, `event_status = ONGOING`, creator stamped). -/
def mkBatchSubmission (st : DBState) (e : BatchEvent) (username : String)
    (today : Nat) : Submission :=
  ⟨st.nextSubmissionId, e.start_date.getD 0, e.end_date.getD 0,
    presetName st.organizers (e.organizer_id.getD 0) ++ " | "
      ++ presetName st.event_names (e.event_name_id.getD 0) ++ " | "
      ++ presetName st.event_types (e.event_type_id.getD 0),
    e.organizer_id, e.event_name_id, e.event_type_id,
    e.city.getD "", e.country.getD "",
    e.proposed_staffing, e.remarks, Option.none, "UNPAID", "pending", "ONGOING",
    username, Option.none, today, today⟩

/-- Inserting one valid batch event: append the row, log the activity,
then run duplicate detection on the new id (its failures are swallowed
and only the notification store changes). -/
def batchInsertOne (st : DBState) (e : BatchEvent) (username : String)
    (now today : Nat) (threshold : Rat) : DBState :=
  (detectDuplicates
    { st with
        submissions := st.submissions ++ [mkBatchSubmission st e username today],
        nextSubmissionId := st.nextSubmissionId + 1,
        activity_log := st.activity_log ++ [⟨"submission_created", username⟩] }
    now st.nextSubmissionId threshold).1

/-- The batch loop: validate each event at its index, skip and report
failures, insert the rest. -/
def batchLoop (username : String) (now today : Nat) (threshold : Rat) :
    List BatchEvent → Nat → DBState → List (Nat × Nat) → List (Nat × String)
    → DBState × List (Nat × Nat) × List (Nat × String)
  | [], _, st, results, errors => (st, results, errors)
  | e :: rest, i, st, results, errors =>
      match validateBatchEvent st e with
      | some msg =>
          batchLoop username now today threshold rest (i + 1) st results
            (errors ++ [(i, msg)])
      | Option.none =>
          batchLoop username now today threshold rest (i + 1)
            (batchInsertOne st e username now today threshold)
            (results ++ [(i, st.nextSubmissionId)]) errors

/-- The response of POST /submissions/batch. -/
structure BatchResponse where
  ok : Bool
  submitted : Nat
  failed : Nat
  results : List (Nat × Nat)
  errors : List (Nat × String)
  state : DBState
deriving Repr, DecidableEq

/-- POST /submissions/batch: reject an empty array, otherwise run the
loop and report `ok` exactly when no event failed. -/
def batchCreate (st : DBState) (events : List BatchEvent) (username : String)
    (now today : Nat) (threshold : Rat) : Except String BatchResponse :=
  if events.isEmpty then
    Except.error "No events provided. Send an array of events."
  else
    Except.ok
      ⟨(batchLoop username now today threshold events 0 st [] []).2.2.isEmpty,
        (batchLoop username now today threshold events 0 st [] []).2.1.length,
        (batchLoop username now today threshold events 0 st [] []).2.2.length,
        (batchLoop username now today threshold events 0 st [] []).2.1,
        (batchLoop username now today threshold events 0 st [] []).2.2,
        (batchLoop username now today threshold events 0 st [] []).1⟩

/-- A batch of three events for the C10 witness: a valid one, one with
reversed dates, and one referring to a missing preset. -/
def batchEvents : List BatchEvent :=
  [⟨some 5, some 6, some 1, some 1, some 1, some "City", some "FR",
      Option.none, Option.none⟩,
    ⟨some 9, some 8, some 1, some 1, some 1, some "City", some "FR",
      Option.none, Option.none⟩,
    ⟨some 5, some 6, some 2, some 1, some 1, some "City", some "FR",
      Option.none, Option.none⟩]

/-- A store holding the presets referenced by `batchEvents`. -/
def batchState : DBState :=
  { emptyState with
      organizers := [(1, "Org A")]
      event_names := [(1, "Fair")]
      event_types := [(1, "Expo")] }

/-! ## Example stores for the notification-engine claims -/

/-- One active counsellor assigned to seven qualifying submissions
(confirmed, ONGOING, starting tomorrow), warnings enabled. -/
def overloadState : DBState :=
  { emptyState with
      counsellors := [exCounsellor]
      submissions := (List.range' 1 7).map (fun i => exSubmission i 1 1 "confirmed")
      assignments := (List.range' 1 7).map (fun i => ⟨i, 1⟩)
      settings := [("staffing_warning_enabled", "true")] }

/-- A store with weekly reports enabled. -/
def weeklyState : DBState :=
  { emptyState with settings := [("weekly_report_enabled", "true")] }

/-- S1 of the duplicate scenario: organizer preset 5, Paris FR,
2026-01-10 .. 2026-01-12 (dates as yyyymmdd day codes). -/
def dupSub1 : Submission :=
  ⟨1, 20260110, 20260112, "Org X", some 5, Option.none, Option.none, "Paris", "FR",
    Option.none, Option.none, Option.none, "UNPAID", "pending", "ONGOING", "jade",
    Option.none, 1, 1⟩

/-- S2 of the duplicate scenario: same organizer and place,
2026-01-11 .. 2026-01-15, created after S1. -/
def dupSub2 : Submission :=
  ⟨2, 20260111, 20260115, "Org X", some 5, Option.none, Option.none, "Paris", "FR",
    Option.none, Option.none, Option.none, "UNPAID", "pending", "ONGOING", "jade",
    Option.none, 2, 2⟩

/-- The duplicate-scenario store: S1 and S2, detection enabled, nothing
dismissed. -/
def dupState : DBState :=
  { emptyState with
      submissions := [dupSub1, dupSub2]
      settings := [("duplicate_detection_enabled", "true")] }

/-- The same store with the pair (1, 2) recorded as dismissed. -/
def dismissState : DBState :=
  { dupState with dismissals := [⟨1, 2⟩] }

/-! ## Theorems -/

theorem mem_getDatesInRange {d s e : Nat} :
    d ∈ getDatesInRange s e ↔ s ≤ d ∧ d ≤ e ∧ s ≤ e := by
  unfold getDatesInRange
  rw [List.mem_range'_1]
  omega

theorem length_getDatesInRange (s e : Nat) :
    (getDatesInRange s e).length = e + 1 - s := by
  simp [getDatesInRange]

theorem nodup_getDatesInRange (s e : Nat) :
    (getDatesInRange s e).Nodup :=
  List.nodup_range' s (e + 1 - s)

theorem mem_coveredDays_compressRuns {d : Nat} (l : List Nat) :
    ∀ start prev : Nat, start ≤ prev →
      (d ∈ coveredDays (compressRuns start prev l) ↔
        (start ≤ d ∧ d ≤ prev) ∨ d ∈ l) := by
  induction l with
  | nil =>
      intro start prev h
      simp only [compressRuns, coveredDays, List.flatMap_cons, List.flatMap_nil,
        List.append_nil, mem_getDatesInRange, List.not_mem_nil, or_false]
      omega
  | cons curr rest ih =>
      intro start prev h
      by_cases hc : curr = prev + 1
      · rw [compressRuns, if_pos hc, ih start curr (by omega)]
        subst hc
        simp only [List.mem_cons]
        constructor
        · rintro (⟨h1, h2⟩ | h1)
          · by_cases hd : d = prev + 1
            · exact Or.inr (Or.inl hd)
            · exact Or.inl ⟨h1, by omega⟩
          · exact Or.inr (Or.inr h1)
        · rintro (⟨h1, h2⟩ | (rfl | h1))
          · exact Or.inl ⟨h1, by omega⟩
          · exact Or.inl ⟨by omega, le_rfl⟩
          · exact Or.inr h1
      · rw [compressRuns, if_neg hc]
        have hrec := ih curr curr le_rfl
        simp only [coveredDays, List.flatMap_cons, List.mem_append] at hrec ⊢
        rw [hrec, mem_getDatesInRange, List.mem_cons]
        constructor
        · rintro (⟨h1, h2, h3⟩ | (⟨h1, h2⟩ | h1))
          · exact Or.inl ⟨h1, h2⟩
          · exact Or.inr (Or.inl (by omega))
          · exact Or.inr (Or.inr h1)
        · rintro (⟨h1, h2⟩ | (h1 | h1))
          · exact Or.inl ⟨h1, h2, h⟩
          · exact Or.inr (Or.inl (by omega))
          · exact Or.inr (Or.inr h1)

/-- The runs produced by `formatDateRanges` cover exactly the input dates. -/
theorem mem_coveredDays_formatDateRanges {d : Nat} (l : List Nat) :
    d ∈ coveredDays (formatDateRanges l) ↔ d ∈ l := by
  unfold formatDateRanges
  have hperm : List.Perm (List.insertionSort (· ≤ ·) l.dedup) l.dedup :=
    List.perm_insertionSort _ _
  cases hs : List.insertionSort (· ≤ ·) l.dedup with
  | nil =>
      rw [hs] at hperm
      have := List.Perm.mem_iff (a := d) hperm
      simp only [List.not_mem_nil, false_iff] at this
      simp only [coveredDays, List.flatMap_nil, List.not_mem_nil, false_iff]
      rw [← List.mem_dedup]
      exact this
  | cons h t =>
      rw [mem_coveredDays_compressRuns t h h le_rfl]
      have hmem : d ∈ h :: t ↔ d ∈ l := by
        rw [← hs, List.Perm.mem_iff (List.perm_insertionSort _ _), List.mem_dedup]
      rw [← hmem, List.mem_cons]
      constructor
      · rintro (⟨h1, h2⟩ | h1)
        · exact Or.inl (by omega)
        · exact Or.inr h1
      · rintro (rfl | h1)
        · exact Or.inl ⟨le_rfl, le_rfl⟩
        · exact Or.inr h1

theorem busyDatesCode_eq_busyDaysSpec (st : DBState) (cid qs qe : Nat)
    (excludeId : Option Nat) :
    busyDatesCode st cid qs qe excludeId = busyDaysSpec st cid qs qe excludeId := by
  unfold busyDatesCode busyDaysSpec conflictsFor
  refine List.filter_congr (fun d _ => ?_)
  rw [List.any_filter]

theorem busyDaysSpec_confirmedOnly (st : DBState) (cid qs qe : Nat)
    (excludeId : Option Nat) :
    busyDaysSpec (confirmedOnly st) cid qs qe excludeId
      = busyDaysSpec st cid qs qe excludeId := by
  unfold busyDaysSpec confirmedOnly
  refine List.filter_congr (fun d _ => ?_)
  rw [List.any_filter]
  congr 1
  funext s
  cases hs : s.status == "confirmed" <;> simp [hs]

theorem availabilityRow_status (st : DBState) (c : Counsellor) (qs qe : Nat)
    (excludeId : Option Nat) :
    (availabilityRow st c qs qe excludeId).status =
      (if (busyDatesCode st c.id qs qe excludeId).length = 0 then "available"
       else if (getDatesInRange qs qe).length ≤ (busyDatesCode st c.id qs qe excludeId).length
       then "busy" else "partially_available") := by
  unfold availabilityRow
  split_ifs with h1 h2 <;> simp_all

/-- C1: for a requested range with `qStart <= qEnd`, the availability
query returns `available` exactly when the busy-day set (requested days
lying inside some confirmed, non-excluded submission assigned to the
counsellor) is empty, `busy` exactly when the busy-day count reaches the
requested-day count, and `partially_available` otherwise; submissions
that are not `confirmed` never contribute busy days. -/
theorem claim1_availability_classification (st : DBState) (c : Counsellor)
    (qs qe : Nat) (excludeId : Option Nat) (hle : qs ≤ qe) :
    ((availabilityRow st c qs qe excludeId).status = "available"
        ↔ busyDaysSpec st c.id qs qe excludeId = [])
      ∧ ((availabilityRow st c qs qe excludeId).status = "busy"
        ↔ (getDatesInRange qs qe).length ≤ (busyDaysSpec st c.id qs qe excludeId).length)
      ∧ ((availabilityRow st c qs qe excludeId).status = "partially_available"
        ↔ 0 < (busyDaysSpec st c.id qs qe excludeId).length
            ∧ (busyDaysSpec st c.id qs qe excludeId).length < (getDatesInRange qs qe).length)
      ∧ busyDaysSpec (confirmedOnly st) c.id qs qe excludeId
          = busyDaysSpec st c.id qs qe excludeId := by
  have hR : 0 < (getDatesInRange qs qe).length := by
    rw [length_getDatesInRange]; omega
  have hstat := availabilityRow_status st c qs qe excludeId
  rw [busyDatesCode_eq_busyDaysSpec] at hstat
  rw [← List.length_eq_zero (l := busyDaysSpec st c.id qs qe excludeId)]
  refine ⟨?_, ?_, ?_, busyDaysSpec_confirmedOnly st c.id qs qe excludeId⟩
  · rw [hstat]; split_ifs with h1 h2
    · simp [h1]
    · simp [h1]
    · simp [h1]
  · rw [hstat]; split_ifs with h1 h2
    · constructor
      · intro h; exact absurd h (by decide)
      · intro h; exact absurd h (by omega)
    · simp [h2]
    · simp [h2]
  · rw [hstat]; split_ifs with h1 h2
    · simp [h1]
    · constructor
      · intro h; exact absurd h (by decide)
      · intro h; exact absurd h (by omega)
    · constructor
      · intro _; omega
      · intro _; rfl

/-- Witness for C1 at a concrete empty store and the one-day window 0..0. -/
theorem claim1_witness :
    (0 : Nat) ≤ 0
      ∧ (((availabilityRow emptyState exCounsellor 0 0 Option.none).status = "available"
            ↔ busyDaysSpec emptyState exCounsellor.id 0 0 Option.none = [])
          ∧ ((availabilityRow emptyState exCounsellor 0 0 Option.none).status = "busy"
            ↔ (getDatesInRange 0 0).length
                ≤ (busyDaysSpec emptyState exCounsellor.id 0 0 Option.none).length)
          ∧ ((availabilityRow emptyState exCounsellor 0 0 Option.none).status
                = "partially_available"
            ↔ 0 < (busyDaysSpec emptyState exCounsellor.id 0 0 Option.none).length
                ∧ (busyDaysSpec emptyState exCounsellor.id 0 0 Option.none).length
                    < (getDatesInRange 0 0).length)
          ∧ busyDaysSpec (confirmedOnly emptyState) exCounsellor.id 0 0 Option.none
              = busyDaysSpec emptyState exCounsellor.id 0 0 Option.none) :=
  ⟨Nat.le.refl,
    claim1_availability_classification emptyState exCounsellor 0 0 Option.none Nat.le.refl⟩

/-- C2: whenever a counsellor is partially available, the days rendered
in the reported free ranges are exactly the requested days minus the busy
days, and their union with the busy days is exactly the query window. -/
theorem claim2_partial_ranges (st : DBState) (c : Counsellor) (qs qe : Nat)
    (excludeId : Option Nat)
    (hp : (availabilityRow st c qs qe excludeId).status = "partially_available") :
    (∀ d, d ∈ coveredDays (availabilityRow st c qs qe excludeId).available_ranges
        ↔ d ∈ getDatesInRange qs qe ∧ d ∉ busyDaysSpec st c.id qs qe excludeId)
      ∧ (∀ d, (d ∈ coveredDays (availabilityRow st c qs qe excludeId).available_ranges
            ∨ d ∈ busyDaysSpec st c.id qs qe excludeId) ↔ d ∈ getDatesInRange qs qe) := by
  have hsub : ∀ d, d ∈ busyDaysSpec st c.id qs qe excludeId → d ∈ getDatesInRange qs qe := by
    intro d hd
    exact (List.mem_filter.mp hd).1
  have hranges : (availabilityRow st c qs qe excludeId).available_ranges
      = formatDateRanges (availableDatesCode st c.id qs qe excludeId) := by
    unfold availabilityRow at hp ⊢
    split_ifs at hp ⊢ with h1 h2 <;> simp_all
  have hmain : ∀ d, d ∈ coveredDays (availabilityRow st c qs qe excludeId).available_ranges
      ↔ d ∈ getDatesInRange qs qe ∧ d ∉ busyDaysSpec st c.id qs qe excludeId := by
    intro d
    rw [hranges, mem_coveredDays_formatDateRanges]
    unfold availableDatesCode
    rw [List.mem_filter, busyDatesCode_eq_busyDaysSpec]
    simp
  refine ⟨hmain, fun d => ?_⟩
  constructor
  · rintro (h | h)
    · exact ((hmain d).mp h).1
    · exact hsub d h
  · intro h
    by_cases hb : d ∈ busyDaysSpec st c.id qs qe excludeId
    · exact Or.inr hb
    · exact Or.inl ((hmain d).mpr ⟨h, hb⟩)

/-- Witness for C2 at a concrete store: confirmed on day 5 of window 5..7,
so the free ranges are exactly days 6..7. -/
theorem claim2_witness :
    (availabilityRow partialState exCounsellor 5 7 Option.none).status = "partially_available"
      ∧ ((∀ d, d ∈ coveredDays (availabilityRow partialState exCounsellor 5 7 Option.none).available_ranges
            ↔ d ∈ getDatesInRange 5 7 ∧ d ∉ busyDaysSpec partialState exCounsellor.id 5 7 Option.none)
        ∧ (∀ d, (d ∈ coveredDays (availabilityRow partialState exCounsellor 5 7 Option.none).available_ranges
              ∨ d ∈ busyDaysSpec partialState exCounsellor.id 5 7 Option.none)
            ↔ d ∈ getDatesInRange 5 7)) :=
  ⟨by decide, claim2_partial_ranges partialState exCounsellor 5 7 Option.none (by decide)⟩

theorem filter_removed_eq_nil (asg : List Assignment) (id : Nat) :
    (asg.filter (fun a => a.submission_id ≠ id)).filter
        (fun a => a.submission_id == id) = [] := by
  apply List.filter_eq_nil_iff.mpr
  intro a ha
  have h2 := (List.mem_filter.mp ha).2
  simp only [decide_not, Bool.not_eq_eq_eq_not, Bool.not_true, decide_eq_false_iff_not] at h2
  simp [h2]

theorem assignedTo_replace (asg : List Assignment) (id : Nat) (sel : List Counsellor) :
    (((asg.filter (fun a => a.submission_id ≠ id))
        ++ sel.map (fun c => (⟨id, c.id⟩ : Assignment))).filter
          (fun a => a.submission_id == id)).map (fun a => a.counsellor_id)
      = sel.map (fun c => c.id) := by
  rw [List.filter_append, filter_removed_eq_nil]
  have h2 : (sel.map (fun c => (⟨id, c.id⟩ : Assignment))).filter
      (fun a => a.submission_id == id) = sel.map (fun c => (⟨id, c.id⟩ : Assignment)) := by
    apply List.filter_eq_self.mpr
    intro a ha
    obtain ⟨c, _, rfl⟩ := List.mem_map.mp ha
    simp
  rw [h2, List.nil_append, List.map_map]
  simp [Function.comp_def]

theorem selected_ids_toFinset (st : DBState) (ids : List Nat)
    (hnodup : (st.counsellors.map (fun c => c.id)).Nodup)
    (hlen : (selectedCounsellors st ids).length = ids.length) :
    ((selectedCounsellors st ids).map (fun c => c.id)).toFinset = ids.toFinset := by
  unfold selectedCounsellors at hlen ⊢
  set cs := st.counsellors with hcs
  set sel := cs.filter (fun c => c.is_active && ids.contains c.id) with hsel
  have hsub : List.Sublist (sel.map (fun c => c.id)) (cs.map (fun c => c.id)) :=
    List.Sublist.map _ (List.filter_sublist cs)
  have hnd : (sel.map (fun c => c.id)).Nodup := List.Nodup.sublist hsub hnodup
  have hsubset : (sel.map (fun c => c.id)).toFinset ⊆ ids.toFinset := by
    intro x hx
    rw [List.mem_toFinset] at hx ⊢
    obtain ⟨c, hc, rfl⟩ := List.mem_map.mp hx
    have hp := (List.mem_filter.mp hc).2
    simp only [Bool.and_eq_true] at hp
    exact List.elem_iff.mp hp.2
  have hcard : ids.toFinset.card ≤ (sel.map (fun c => c.id)).toFinset.card := by
    rw [List.toFinset_card_of_nodup hnd, List.length_map, hlen]
    exact List.toFinset_card_le ids
  exact Finset.eq_of_subset_of_card_le hsubset hcard

theorem finalize_ok_spec (st : DBState) (id : Nat) (ids : List Nat) (now : Nat)
    (st' : DBState) (h : finalize st id ids now = Except.ok st') :
    st'.counsellors = st.counsellors
      ∧ assignedTo st' id = (selectedCounsellors st ids).map (fun c => c.id)
      ∧ (selectedCounsellors st ids).length = ids.length
      ∧ ∀ s ∈ st'.submissions, s.id = id →
          s.status = "confirmed" ∧ s.confirmed_at = some now := by
  unfold finalize at h
  split at h
  · exact absurd h (by simp)
  · split at h
    · exact absurd h (by simp)
    · split at h
      · exact absurd h (by simp)
      · split at h
        · exact absurd h (by simp)
        · obtain rfl := (Except.ok.inj h).symm
          refine ⟨rfl, ?_, by omega, ?_⟩
          · exact assignedTo_replace st.assignments id (selectedCounsellors st ids)
          · intro s hs hid
            obtain ⟨a, ha, rfl⟩ := List.mem_map.mp hs
            by_cases hcase : a.id = id
            · simp [hcase]
            · rw [if_neg hcase] at hid ⊢
              exact absurd hid hcase

/-- C3: a successful finalize followed by a successful re-finalize leaves
the assignment set exactly the second supplied set (replace, not merge),
with the submission confirmed and `confirmed_at` stamped. -/
theorem claim3_refinalize_replaces (st : DBState) (id : Nat)
    (ids1 ids2 : List Nat) (t1 t2 : Nat) (st1 st2 : DBState)
    (hnodup : (st.counsellors.map (fun c => c.id)).Nodup)
    (h1 : finalize st id ids1 t1 = Except.ok st1)
    (h2 : finalize st1 id ids2 t2 = Except.ok st2) :
    (assignedTo st1 id).toFinset = ids1.toFinset
      ∧ (assignedTo st2 id).toFinset = ids2.toFinset
      ∧ ∀ s ∈ st2.submissions, s.id = id →
          s.status = "confirmed" ∧ s.confirmed_at = some t2 := by
  obtain ⟨hc1, ha1, hl1, _⟩ := finalize_ok_spec st id ids1 t1 st1 h1
  obtain ⟨_, ha2, hl2, hs2⟩ := finalize_ok_spec st1 id ids2 t2 st2 h2
  refine ⟨?_, ?_, hs2⟩
  · rw [ha1]; exact selected_ids_toFinset _ _ hnodup hl1
  · rw [ha2]
    have hnodup1 : (st1.counsellors.map (fun c => c.id)).Nodup := by
      rw [hc1]; exact hnodup
    exact selected_ids_toFinset st1 ids2 hnodup1 hl2

/-- Witness for C3: finalize submission 1 with counsellors 1 and 2, then
re-finalize with counsellor 3 only. -/
theorem claim3_witness :
    (staffState.counsellors.map (fun c => c.id)).Nodup
      ∧ finalize staffState 1 [1, 2] 10 = Except.ok staffState1
      ∧ finalize staffState1 1 [3] 11 = Except.ok staffState2
      ∧ ((assignedTo staffState1 1).toFinset = ([1, 2] : List Nat).toFinset
        ∧ (assignedTo staffState2 1).toFinset = ([3] : List Nat).toFinset
        ∧ ∀ s ∈ staffState2.submissions, s.id = 1 →
            s.status = "confirmed" ∧ s.confirmed_at = some 11) :=
  ⟨by decide, by rfl, by rfl,
    claim3_refinalize_replaces staffState 1 [1, 2] [3] 10 11 staffState1 staffState2
      (by decide) (by rfl) (by rfl)⟩

/-- C4: a metadata update whose event status resolves to CANCELLED or
POSTPONED empties the assignment set and forces the decision status to
not_applicable in the same write. -/
theorem claim4_cancel_clears (st : DBState) (id : Nat) (body : MetaBody)
    (now : Nat) (st' : DBState) (v : String)
    (hev : body.event_status = some v)
    (hv : (jsToUpper v) = "CANCELLED" ∨ (jsToUpper v) = "POSTPONED")
    (h : metaUpdate st id body now = Except.ok st') :
    assignedTo st' id = []
      ∧ ∀ s ∈ st'.submissions, s.id = id →
          s.status = "not_applicable" ∧ s.event_status = (jsToUpper v) := by
  have hcont : allowedStatus.contains (jsToUpper v) = true := by
    rcases hv with hvc | hvc <;> rw [hvc] <;> decide
  have hcanc : ((jsToUpper v) == "CANCELLED" || (jsToUpper v) == "POSTPONED") = true := by
    rcases hv with hvc | hvc <;> rw [hvc] <;> decide
  unfold metaUpdate at h
  split at h
  · exact absurd h (by simp)
  · rename_i row hrow
    have hstat : metaNewStatus row body = some (jsToUpper v) := by
      unfold metaNewStatus
      rw [hev]
      show (if allowedStatus.contains (jsToUpper v) = true then some (jsToUpper v)
            else Option.none) = some (jsToUpper v)
      exact if_pos hcont
    rw [hstat] at h
    split at h
    · exact absurd h (by simp)
    · rename_i newPay hpay
      obtain rfl := (Except.ok.inj h).symm
      constructor
      · show ((((metaApply st id row body now newPay (jsToUpper v)).assignments).filter
            (fun a => a.submission_id == id)).map (fun a => a.counsellor_id)) = []
        unfold metaApply
        simp only [hcanc, if_true]
        rw [filter_removed_eq_nil, List.map_nil]
      · intro s hs hid
        unfold metaApply at hs
        simp only [hcanc, if_true] at hs
        obtain ⟨a, ha, rfl⟩ := List.mem_map.mp hs
        by_cases hcase : a.id = id
        · simp [hcase]
        · rw [if_neg hcase] at hid ⊢
          exact absurd hid hcase

/-- Witness for C4: cancelling the finalized submission of `staffState1`
clears both assignments and forces not_applicable. -/
theorem claim4_witness :
    cancelBody.event_status = some "CANCELLED"
      ∧ ((jsToUpper "CANCELLED") = "CANCELLED" ∨ (jsToUpper "CANCELLED") = "POSTPONED")
      ∧ metaUpdate staffState1 1 cancelBody 12 = Except.ok cancelledState
      ∧ (assignedTo cancelledState 1 = []
        ∧ ∀ s ∈ cancelledState.submissions, s.id = 1 →
            s.status = "not_applicable" ∧ s.event_status = (jsToUpper "CANCELLED")) :=
  ⟨rfl, Or.inl rfl, by rfl,
    claim4_cancel_clears staffState1 1 cancelBody 12 cancelledState "CANCELLED"
      rfl (Or.inl rfl) (by rfl)⟩

/-- C5: for a valid owner edit of a confirmed submission, the update is
rejected (with no write) exactly when today has reached the start date;
strictly before the start date it succeeds, resets the status to pending,
and leaves the assignment rows unchanged. -/
theorem claim5_confirmed_edit_guard (st : DBState) (id : Nat) (username : String)
    (body : EditBody) (today now : Nat) (sub : Submission) (sd ed : Nat)
    (hsd : body.start_date = some sd) (hed : body.end_date = some ed)
    (horg : strTruthy body.organizer = true) (hcity : strTruthy body.city = true)
    (hcountry : strTruthy body.country = true) (hdates : sd ≤ ed)
    (hfind : st.submissions.find? (fun s => s.id == id) = some sub)
    (hown : sub.submitted_by = username) (hconf : sub.status = "confirmed") :
    (sub.start_date ≤ today →
      counsellorUpdate st id username body today now
        = Except.error "Cannot edit a confirmed event on or after the start date.")
      ∧ (today < sub.start_date →
          counsellorUpdate st id username body today now
              = Except.ok (applyCounsellorEdit st id body now)
            ∧ (applyCounsellorEdit st id body now).assignments = st.assignments
            ∧ ∀ s ∈ (applyCounsellorEdit st id body now).submissions,
                s.id = id → s.status = "pending") := by
  have hguard1 : (body.start_date.isNone || body.end_date.isNone
      || !(strTruthy body.organizer) || !(strTruthy body.city)
      || !(strTruthy body.country)) = false := by
    rw [hsd, hed, horg, hcity, hcountry]
    rfl
  have hguard2 : ¬(body.end_date.getD 0 < body.start_date.getD 0) := by
    rw [hsd, hed]
    simpa using hdates
  have hne : ¬(sub.submitted_by ≠ username) := by simp [hown]
  have hred : ∀ r : Except String DBState,
      (counsellorUpdate st id username body today now = r)
        ↔ ((if sub.status == "confirmed" && decide (sub.start_date ≤ today) then
              Except.error "Cannot edit a confirmed event on or after the start date."
            else Except.ok (applyCounsellorEdit st id body now)) = r) := by
    intro r
    unfold counsellorUpdate
    rw [hguard1, hfind]
    simp only [Bool.false_eq_true, if_false, if_neg hguard2, if_neg hne]
  constructor
  · intro htoday
    rw [hred]
    rw [if_pos]
    rw [hconf]
    simp [htoday]
  · intro htoday
    have hfalse : (sub.status == "confirmed" && decide (sub.start_date ≤ today)) = false := by
      rw [hconf]
      simp
      omega
    refine ⟨?_, rfl, ?_⟩
    · rw [hred, hfalse]
      rfl
    · intro s hs hid
      unfold applyCounsellorEdit at hs
      obtain ⟨a, ha, rfl⟩ := List.mem_map.mp hs
      by_cases hcase : a.id = id
      · simp [hcase]
      · rw [if_neg hcase] at hid ⊢
        exact absurd hid hcase

/-- Witness for C5 at the concrete store `editState`: the confirmed
submission starts on day 6; with today = 5 (start = today + 1) the edit
succeeds, with today = 6 it would be rejected (the guard hypotheses are
discharged concretely and the success branch is exercised). -/
theorem claim5_witness :
    editBody.start_date = some 6 ∧ editBody.end_date = some 7
      ∧ strTruthy editBody.organizer = true ∧ strTruthy editBody.city = true
      ∧ strTruthy editBody.country = true ∧ 6 ≤ 7
      ∧ editState.submissions.find? (fun s => s.id == 1) = some (exSubmission 1 6 7 "confirmed")
      ∧ (exSubmission 1 6 7 "confirmed").submitted_by = "jade"
      ∧ (exSubmission 1 6 7 "confirmed").status = "confirmed"
      ∧ (((exSubmission 1 6 7 "confirmed").start_date ≤ 6 →
            counsellorUpdate editState 1 "jade" editBody 6 9
              = Except.error "Cannot edit a confirmed event on or after the start date.")
        ∧ (5 < (exSubmission 1 6 7 "confirmed").start_date →
            counsellorUpdate editState 1 "jade" editBody 5 9
                = Except.ok (applyCounsellorEdit editState 1 editBody 9)
              ∧ (applyCounsellorEdit editState 1 editBody 9).assignments
                  = editState.assignments
              ∧ ∀ s ∈ (applyCounsellorEdit editState 1 editBody 9).submissions,
                  s.id = 1 → s.status = "pending")) :=
  ⟨rfl, rfl, rfl, rfl, rfl, by decide, by rfl, rfl, rfl,
    (claim5_confirmed_edit_guard editState 1 "jade" editBody 6 9
        (exSubmission 1 6 7 "confirmed") 6 7 rfl rfl rfl rfl rfl (by decide)
        (by rfl) rfl rfl).1,
    (claim5_confirmed_edit_guard editState 1 "jade" editBody 5 9
        (exSubmission 1 6 7 "confirmed") 6 7 rfl rfl rfl rfl rfl (by decide)
        (by rfl) rfl rfl).2⟩

theorem claim6_h2 (st : DBState) (now today threshold : Nat)
    (henabled : isSettingEnabled st "staffing_warning_enabled" = true) :
    (checkCounsellorOverload st now today threshold).2
      = overloadAlerts st today threshold := by
  unfold checkCounsellorOverload
  rw [henabled]
  rfl

/-- C6 (amended): with warnings enabled and a positive threshold, the
overload check submits a staffing-warning alert for an active counsellor
exactly when their qualifying event count reaches the threshold, and the
submitted priority is high exactly when the count is at least
threshold + 2 (medium otherwise). -/
theorem claim6_overload_amended (st : DBState) (now today threshold : Nat)
    (henabled : isSettingEnabled st "staffing_warning_enabled" = true)
    (hthr : 1 ≤ threshold) :
    (checkCounsellorOverload st now today threshold).2
        = overloadAlerts st today threshold
      ∧ (∀ c ∈ st.counsellors, c.is_active = true →
          ((∃ a ∈ (checkCounsellorOverload st now today threshold).2,
              a.counsellor_id = c.id)
            ↔ threshold ≤ overloadEventCount st today c.id))
      ∧ (∀ a ∈ (checkCounsellorOverload st now today threshold).2,
          a.event_count = overloadEventCount st today a.counsellor_id
            ∧ a.priority
                = (if threshold + 2 ≤ a.event_count then "high" else "medium")) := by
  have h2 := claim6_h2 st now today threshold henabled
  refine ⟨h2, ?_, ?_⟩
  · intro c hc hact
    rw [h2]
    constructor
    · rintro ⟨a, ha, haid⟩
      unfold overloadAlerts at ha
      obtain ⟨c', hc', rfl⟩ := List.mem_map.mp ha
      have hp := (List.mem_filter.mp hc').2
      simp only [Bool.and_eq_true, decide_eq_true_eq] at hp
      have hid : c'.id = c.id := haid
      rw [← hid]
      exact hp.2
    · intro hcount
      refine ⟨⟨c.id, c.full_name, overloadEventCount st today c.id,
        if threshold + 2 ≤ overloadEventCount st today c.id then "high"
        else "medium"⟩, ?_, rfl⟩
      unfold overloadAlerts
      apply List.mem_map.mpr
      refine ⟨c, ?_, rfl⟩
      apply List.mem_filter.mpr
      refine ⟨hc, ?_⟩
      simp only [hact, Bool.true_and, Bool.and_eq_true, decide_eq_true_eq]
      omega
  · intro a ha
    rw [h2] at ha
    unfold overloadAlerts at ha
    obtain ⟨c', _, rfl⟩ := List.mem_map.mp ha
    exact ⟨rfl, rfl⟩

/-- Witness for the amended C6 at the concrete overloaded store. -/
theorem claim6_witness :
    isSettingEnabled overloadState "staffing_warning_enabled" = true
      ∧ 1 ≤ 5
      ∧ ((checkCounsellorOverload overloadState 0 0 5).2
            = overloadAlerts overloadState 0 5
        ∧ (∀ c ∈ overloadState.counsellors, c.is_active = true →
            ((∃ a ∈ (checkCounsellorOverload overloadState 0 0 5).2,
                a.counsellor_id = c.id)
              ↔ 5 ≤ overloadEventCount overloadState 0 c.id))
        ∧ (∀ a ∈ (checkCounsellorOverload overloadState 0 0 5).2,
            a.event_count = overloadEventCount overloadState 0 a.counsellor_id
              ∧ a.priority
                  = (if 5 + 2 ≤ a.event_count then "high" else "medium"))) :=
  ⟨by decide, by decide,
    claim6_overload_amended overloadState 0 0 5 (by decide) (by decide)⟩

/-- Counterexample for C6 as stated: at event count exactly threshold + 2
(seven events, threshold 5) the source escalates to high, while the claim
("exceeds threshold + 2") requires medium. -/
theorem claim6_counterexample :
    overloadAlerts overloadState 0 5 = [⟨1, "Jade P", 7, "high"⟩]
      ∧ overloadEventCount overloadState 0 1 = 5 + 2
      ∧ ¬ (5 + 2 < 5 + 2)
      ∧ ((checkCounsellorOverload overloadState 0 0 5).1.notifications.map
          (fun n => (n.ntype, n.priority, n.meta)))
          = [("staffing_warning", "high", NotifMeta.overload 1 7)] :=
  ⟨by decide, by decide, by decide, by decide⟩

theorem notif_weekly_removed (l : List Notification) :
    (l.filter (fun n => n.ntype ≠ "weekly_report")).filter
        (fun n => n.ntype == "weekly_report") = [] := by
  apply List.filter_eq_nil_iff.mpr
  intro n hn
  have h2 := (List.mem_filter.mp hn).2
  simp only [decide_not, Bool.not_eq_eq_eq_not, Bool.not_true,
    decide_eq_false_iff_not] at h2
  simp [h2]

theorem createNotification_weekly_count (st : DBState) (now : Nat)
    (priority title message : String) (meta : NotifMeta) (targetRole : String)
    (targetUser : Option String) (relatedId : Option Nat) :
    ((createNotification st now "weekly_report" priority title message meta
        targetRole targetUser relatedId).notifications.filter
      (fun n => n.ntype == "weekly_report")).length = 1 := by
  unfold createNotification
  rw [if_pos (by decide)]
  show ((st.notifications.filter (fun n => n.ntype ≠ "weekly_report")
      ++ [mkNotification st now "weekly_report" priority title message meta
          targetRole targetUser relatedId]).filter
        (fun n => n.ntype == "weekly_report")).length = 1
  rw [List.filter_append, notif_weekly_removed, List.nil_append]
  simp [mkNotification]

/-- C7: whenever weekly-report generation actually runs (forced or
enabled), the resulting store holds exactly one weekly-report
notification, for every starting store; hence any number of successive
runs leaves exactly one. -/
theorem claim7_weekly_singleton (st : DBState) (now today : Nat) (force : Bool)
    (h : force = true ∨ isSettingEnabled st "weekly_report_enabled" = true) :
    ((generateWeeklyReport st now today force).notifications.filter
        (fun n => n.ntype == "weekly_report")).length = 1 := by
  unfold generateWeeklyReport
  have hcond : (!force && !(isSettingEnabled st "weekly_report_enabled")) = false := by
    rcases h with h | h <;> rw [h] <;> simp
  rw [hcond]
  simp only [Bool.false_eq_true, if_false]
  exact createNotification_weekly_count st now _ _ _ _ _ _ _

theorem createNotification_mem (st : DBState) (now : Nat)
    (ntype priority title message : String) (meta : NotifMeta)
    (targetRole : String) (targetUser : Option String) (relatedId : Option Nat) :
    ∀ n ∈ (createNotification st now ntype priority title message meta targetRole
        targetUser relatedId).notifications,
      n ∈ st.notifications ∨ n.meta = meta := by
  intro n hn
  unfold createNotification at hn
  split_ifs at hn with h1 h2
  · replace hn : n ∈ (st.notifications.filter (fun n => n.ntype ≠ "weekly_report"))
        ++ [mkNotification st now ntype priority title message meta targetRole
            targetUser relatedId] := hn
    rw [List.mem_append] at hn
    rcases hn with hn | hn
    · exact Or.inl (List.mem_filter.mp hn).1
    · rw [List.mem_singleton] at hn
      subst hn
      exact Or.inr rfl
  · exact Or.inl hn
  · replace hn : n ∈ st.notifications
        ++ [mkNotification st now ntype priority title message meta targetRole
            targetUser relatedId] := hn
    rw [List.mem_append] at hn
    rcases hn with hn | hn
    · exact Or.inl hn
    · rw [List.mem_singleton] at hn
      subst hn
      exact Or.inr rfl

theorem isDismissed_symm (st : DBState) (a b : Nat) :
    isDismissed st a b = isDismissed st b a := by
  unfold isDismissed
  congr 1
  funext d
  rw [Bool.or_comm]

theorem metaIsPair_symm (m : NotifMeta) (a b : Nat) :
    metaIsPair m a b = metaIsPair m b a := by
  cases m <;> simp [metaIsPair, Bool.or_comm]

theorem dupFold_spec (st0 : DBState) (now : Nat) (newSub : Submission)
    (threshold : Rat) (b : Nat)
    (hdis : isDismissed st0 newSub.id b = true) :
    ∀ l : List Submission, (∀ c ∈ l, c.id ≠ newSub.id) →
      ∀ acc : DBState × List DuplicateHit,
        (∀ hit ∈ acc.2, hit.existingSubmissionId ≠ b) →
        (∀ n ∈ acc.1.notifications, n ∈ st0.notifications
          ∨ metaIsPair n.meta newSub.id b = false) →
        (∀ hit ∈ (l.foldl (dupStep st0 now newSub threshold) acc).2,
            hit.existingSubmissionId ≠ b)
          ∧ (∀ n ∈ (l.foldl (dupStep st0 now newSub threshold) acc).1.notifications,
              n ∈ st0.notifications ∨ metaIsPair n.meta newSub.id b = false) := by
  intro l
  induction l with
  | nil =>
      intro _ acc h1 h2
      rw [List.foldl_nil]
      exact ⟨h1, h2⟩
  | cons c rest ih =>
      intro hl acc hacc1 hacc2
      rw [List.foldl_cons]
      have hcneq : c.id ≠ newSub.id := hl c (List.mem_cons_self c rest)
      refine ih (fun x hx => hl x (List.mem_cons_of_mem c hx))
          (dupStep st0 now newSub threshold acc c) ?_ ?_
      · intro hit hhit
        unfold dupStep at hhit
        split_ifs at hhit with hd hscore hprio
        · exact hacc1 hit hhit
        · replace hhit : hit ∈ acc.2
              ++ [(⟨c.id, (calculateSimilarity newSub c).1,
                  (calculateSimilarity newSub c).2⟩ : DuplicateHit)] := hhit
          rw [List.mem_append] at hhit
          rcases hhit with hhit | hhit
          · exact hacc1 hit hhit
          · rw [List.mem_singleton] at hhit
            subst hhit
            intro hcb
            have hcb2 : c.id = b := hcb
            rw [hcb2] at hd
            exact hd hdis
        · replace hhit : hit ∈ acc.2
              ++ [(⟨c.id, (calculateSimilarity newSub c).1,
                  (calculateSimilarity newSub c).2⟩ : DuplicateHit)] := hhit
          rw [List.mem_append] at hhit
          rcases hhit with hhit | hhit
          · exact hacc1 hit hhit
          · rw [List.mem_singleton] at hhit
            subst hhit
            intro hcb
            have hcb2 : c.id = b := hcb
            rw [hcb2] at hd
            exact hd hdis
        · exact hacc1 hit hhit
      · intro n hn
        unfold dupStep at hn
        split_ifs at hn with hd hscore hprio
        · exact hacc2 n hn
        · have hcb : c.id ≠ b := by
            intro hcb
            rw [hcb] at hd
            exact hd hdis
          rcases createNotification_mem _ _ _ _ _ _ _ _ _ _ n hn with hold | hmeta
          · exact hacc2 n hold
          · right
            simp [metaIsPair, hmeta, hcb, hcneq]
        · have hcb : c.id ≠ b := by
            intro hcb
            rw [hcb] at hd
            exact hd hdis
          rcases createNotification_mem _ _ _ _ _ _ _ _ _ _ n hn with hold | hmeta
          · exact hacc2 n hold
          · right
            simp [metaIsPair, hmeta, hcb, hcneq]
        · exact hacc2 n hn

theorem detectDuplicates_dismissed (st : DBState) (now : Nat) (x y : Nat)
    (threshold : Rat) (hxy : isDismissed st x y = true) :
    (∀ hit ∈ (detectDuplicates st now x threshold).2, hit.existingSubmissionId ≠ y)
      ∧ (∀ n ∈ (detectDuplicates st now x threshold).1.notifications,
          n ∈ st.notifications ∨ metaIsPair n.meta x y = false) := by
  unfold detectDuplicates
  split_ifs with hen
  · exact ⟨by intro hit h; simp at h, fun n hn => Or.inl hn⟩
  · split
    · exact ⟨by intro hit h; simp at h, fun n hn => Or.inl hn⟩
    · rename_i newSub hfind
      have hid : newSub.id = x := by
        have := List.find?_some hfind
        simpa using this
      have hcands : ∀ c ∈ duplicateCandidates st newSub, c.id ≠ newSub.id := by
        intro c hc
        unfold duplicateCandidates at hc
        have hc2 := List.mem_of_mem_take hc
        have hc3 : c ∈ duplicateCandidateFilter st newSub :=
          (List.Perm.mem_iff (List.perm_insertionSort
            (fun a b : Submission => b.created_at ≤ a.created_at)
            (duplicateCandidateFilter st newSub))).mp hc2
        unfold duplicateCandidateFilter at hc3
        have hp := (List.mem_filter.mp hc3).2
        simp only [Bool.and_eq_true, bne_iff_ne] at hp
        exact hp.1.1
      have hinv := dupFold_spec st now newSub threshold y (by rw [hid]; exact hxy)
          (duplicateCandidates st newSub) hcands (st, [])
          (by intro hit h; simp at h) (fun n hn => Or.inl hn)
      rw [hid] at hinv
      exact hinv

/-- C8: once a pair is recorded in duplicate dismissals (either order), a
duplicate-detection pass over either submission records no hit for the
other and submits no notification whose metadata names the pair. -/
theorem claim8_dismissed_never_reflagged (st : DBState) (now : Nat) (a b : Nat)
    (threshold : Rat) (hd : isDismissed st a b = true) :
    ((∀ hit ∈ (detectDuplicates st now a threshold).2, hit.existingSubmissionId ≠ b)
      ∧ (∀ n ∈ (detectDuplicates st now a threshold).1.notifications,
          n ∈ st.notifications ∨ metaIsPair n.meta a b = false))
    ∧ ((∀ hit ∈ (detectDuplicates st now b threshold).2, hit.existingSubmissionId ≠ a)
      ∧ (∀ n ∈ (detectDuplicates st now b threshold).1.notifications,
          n ∈ st.notifications ∨ metaIsPair n.meta a b = false)) := by
  refine ⟨detectDuplicates_dismissed st now a b threshold hd, ?_⟩
  have hd2 : isDismissed st b a = true := by
    rw [isDismissed_symm]
    exact hd
  obtain ⟨m1, m2⟩ := detectDuplicates_dismissed st now b a threshold hd2
  refine ⟨m1, fun n hn => ?_⟩
  rcases m2 n hn with h | h
  · exact Or.inl h
  · right
    rw [metaIsPair_symm]
    exact h

/-- Witness for C8 at the concrete dismissed pair (1, 2) of
`dismissState`. -/
theorem claim8_witness :
    isDismissed dismissState 1 2 = true
      ∧ (((∀ hit ∈ (detectDuplicates dismissState 100 1 (7 / 10)).2,
            hit.existingSubmissionId ≠ 2)
          ∧ (∀ n ∈ (detectDuplicates dismissState 100 1 (7 / 10)).1.notifications,
              n ∈ dismissState.notifications ∨ metaIsPair n.meta 1 2 = false))
        ∧ ((∀ hit ∈ (detectDuplicates dismissState 100 2 (7 / 10)).2,
            hit.existingSubmissionId ≠ 1)
          ∧ (∀ n ∈ (detectDuplicates dismissState 100 2 (7 / 10)).1.notifications,
              n ∈ dismissState.notifications ∨ metaIsPair n.meta 1 2 = false))) :=
  ⟨by decide,
    claim8_dismissed_never_reflagged dismissState 100 1 2 (7 / 10) (by decide)⟩

theorem claim9_citySimilar :
    citySimilar (jsToLower dupSub2.city) (jsToLower dupSub1.city) = true := by
  unfold citySimilar
  have h1 : levenshteinDistance (jsToLower dupSub2.city).data
      (jsToLower dupSub1.city).data = 0 := by decide
  have h2 : max (jsToLower dupSub2.city).length (jsToLower dupSub1.city).length = 5 := by
    decide
  simp only [h1, h2, decide_eq_true_eq]
  norm_num

theorem claim9_similarity :
    calculateSimilarity dupSub2 dupSub1
      = (round2 ((0 : Rat) + 35 / 100 + 25 / 100 + 15 / 100 + 15 / 100),
          ["Same organizer", "Overlapping dates", "Same country", "Similar city"]) := by
  unfold calculateSimilarity
  rw [claim9_citySimilar]
  rfl

theorem claim9_score : (calculateSimilarity dupSub2 dupSub1).1 = 9 / 10 := by
  rw [claim9_similarity]
  show round2 ((0 : Rat) + 35 / 100 + 25 / 100 + 15 / 100 + 15 / 100) = 9 / 10
  unfold round2
  have harg : ((0 : Rat) + 35 / 100 + 25 / 100 + 15 / 100 + 15 / 100) * 100 + 1 / 2
      = 181 / 2 := by norm_num
  rw [harg]
  have hfloor : Int.floor ((181 : Rat) / 2) = 90 := by
    rw [Int.floor_eq_iff]
    norm_num
  rw [hfloor]
  norm_num

/-- C9: the concrete same-organizer, overlapping, same-country,
same-city pair scores 0.9 (at least 0.75), above the 0.7 threshold, so
the pass on creation of S2 records the hit and submits a duplicate
notification. -/
theorem claim9_duplicate_scenario :
    (3 : Rat) / 4 ≤ (calculateSimilarity dupSub2 dupSub1).1
      ∧ (7 : Rat) / 10 < (calculateSimilarity dupSub2 dupSub1).1
      ∧ (detectDuplicates dupState 100 2 (7 / 10)).2
          = [⟨1, 9 / 10,
              ["Same organizer", "Overlapping dates", "Same country", "Similar city"]⟩]
      ∧ ((detectDuplicates dupState 100 2 (7 / 10)).1.notifications.map
          (fun n => (n.ntype, n.related_submission_id, n.meta)))
          = [("duplicate_detected", some 2, NotifMeta.duplicate 2 1 (9 / 10))] := by
  have h710 : (7 : Rat) / 10 ≤ (calculateSimilarity dupSub2 dupSub1).1 := by
    rw [claim9_score]
    norm_num
  have h910 : (9 : Rat) / 10 ≤ (calculateSimilarity dupSub2 dupSub1).1 := by
    rw [claim9_score]
  have hstep : detectDuplicates dupState 100 2 (7 / 10)
      = dupStep dupState 100 dupSub2 (7 / 10) (dupState, []) dupSub1 := by
    rfl
  have hnotdis : ¬(isDismissed dupState dupSub2.id dupSub1.id = true) := by decide
  refine ⟨?_, ?_, ?_, ?_⟩
  · rw [claim9_score]
    norm_num
  · rw [claim9_score]
    norm_num
  · rw [hstep]
    unfold dupStep
    rw [if_neg hnotdis, if_pos h710]
    show [] ++ [(⟨dupSub1.id, (calculateSimilarity dupSub2 dupSub1).1,
        (calculateSimilarity dupSub2 dupSub1).2⟩ : DuplicateHit)] = _
    rw [claim9_score, claim9_similarity]
    rfl
  · rw [hstep]
    unfold dupStep
    rw [if_neg hnotdis, if_pos h710, if_pos h910]
    show ((createNotification dupState 100 "duplicate_detected" "high"
        "Possible duplicate event detected"
        ("New submission is similar to existing event " ++ toString dupSub1.id ++ ".")
        (NotifMeta.duplicate dupSub2.id dupSub1.id
          (calculateSimilarity dupSub2 dupSub1).1) "admin"
        Option.none (some dupSub2.id)).notifications.map
          (fun n => (n.ntype, n.related_submission_id, n.meta)))
        = [("duplicate_detected", some 2, NotifMeta.duplicate 2 1 (9 / 10))]
    rw [claim9_score]
    rfl

/-- Witness for C7: a run on the enabled store leaves one weekly report. -/
theorem claim7_witness :
    (false = true ∨ isSettingEnabled weeklyState "weekly_report_enabled" = true)
      ∧ ((generateWeeklyReport weeklyState 50 0 false).notifications.filter
          (fun n => n.ntype == "weekly_report")).length = 1 :=
  ⟨Or.inr (by decide),
    claim7_weekly_singleton weeklyState 50 0 false (Or.inr (by decide))⟩

theorem createNotification_core (st : DBState) (now : Nat)
    (ntype priority title message : String) (meta : NotifMeta)
    (targetRole : String) (targetUser : Option String) (relatedId : Option Nat) :
    (createNotification st now ntype priority title message meta targetRole
          targetUser relatedId).submissions = st.submissions
      ∧ (createNotification st now ntype priority title message meta targetRole
          targetUser relatedId).organizers = st.organizers
      ∧ (createNotification st now ntype priority title message meta targetRole
          targetUser relatedId).event_names = st.event_names
      ∧ (createNotification st now ntype priority title message meta targetRole
          targetUser relatedId).event_types = st.event_types
      ∧ (createNotification st now ntype priority title message meta targetRole
          targetUser relatedId).nextSubmissionId = st.nextSubmissionId := by
  unfold createNotification
  split_ifs <;> exact ⟨rfl, rfl, rfl, rfl, rfl⟩

theorem dupFold_core (st0 : DBState) (now : Nat) (newSub : Submission)
    (threshold : Rat) :
    ∀ (l : List Submission) (acc : DBState × List DuplicateHit),
      ((l.foldl (dupStep st0 now newSub threshold) acc).1.submissions
          = acc.1.submissions)
      ∧ ((l.foldl (dupStep st0 now newSub threshold) acc).1.organizers
          = acc.1.organizers)
      ∧ ((l.foldl (dupStep st0 now newSub threshold) acc).1.event_names
          = acc.1.event_names)
      ∧ ((l.foldl (dupStep st0 now newSub threshold) acc).1.event_types
          = acc.1.event_types)
      ∧ ((l.foldl (dupStep st0 now newSub threshold) acc).1.nextSubmissionId
          = acc.1.nextSubmissionId) := by
  intro l
  induction l with
  | nil =>
      intro acc
      rw [List.foldl_nil]
      exact ⟨rfl, rfl, rfl, rfl, rfl⟩
  | cons c rest ih =>
      intro acc
      rw [List.foldl_cons]
      have hstep : (dupStep st0 now newSub threshold acc c).1.submissions
            = acc.1.submissions
          ∧ (dupStep st0 now newSub threshold acc c).1.organizers = acc.1.organizers
          ∧ (dupStep st0 now newSub threshold acc c).1.event_names = acc.1.event_names
          ∧ (dupStep st0 now newSub threshold acc c).1.event_types = acc.1.event_types
          ∧ (dupStep st0 now newSub threshold acc c).1.nextSubmissionId
            = acc.1.nextSubmissionId := by
        unfold dupStep
        split_ifs
        · exact ⟨rfl, rfl, rfl, rfl, rfl⟩
        · exact createNotification_core acc.1 now _ _ _ _ _ _ _ _
        · exact createNotification_core acc.1 now _ _ _ _ _ _ _ _
        · exact ⟨rfl, rfl, rfl, rfl, rfl⟩
      obtain ⟨i1, i2, i3, i4, i5⟩ := ih (dupStep st0 now newSub threshold acc c)
      exact ⟨i1.trans hstep.1, i2.trans hstep.2.1, i3.trans hstep.2.2.1,
        i4.trans hstep.2.2.2.1, i5.trans hstep.2.2.2.2⟩

theorem detectDuplicates_core (st : DBState) (now : Nat) (newSubmissionId : Nat)
    (threshold : Rat) :
    (detectDuplicates st now newSubmissionId threshold).1.submissions = st.submissions
      ∧ (detectDuplicates st now newSubmissionId threshold).1.organizers = st.organizers
      ∧ (detectDuplicates st now newSubmissionId threshold).1.event_names = st.event_names
      ∧ (detectDuplicates st now newSubmissionId threshold).1.event_types = st.event_types
      ∧ (detectDuplicates st now newSubmissionId threshold).1.nextSubmissionId
          = st.nextSubmissionId := by
  unfold detectDuplicates
  split_ifs
  · exact ⟨rfl, rfl, rfl, rfl, rfl⟩
  · split
    · exact ⟨rfl, rfl, rfl, rfl, rfl⟩
    · exact dupFold_core st now _ threshold (duplicateCandidates st _) (st, [])

theorem batchInsertOne_spec (st : DBState) (e : BatchEvent) (username : String)
    (now today : Nat) (threshold : Rat) :
    (batchInsertOne st e username now today threshold).submissions
        = st.submissions ++ [mkBatchSubmission st e username today]
      ∧ (batchInsertOne st e username now today threshold).organizers = st.organizers
      ∧ (batchInsertOne st e username now today threshold).event_names = st.event_names
      ∧ (batchInsertOne st e username now today threshold).event_types
          = st.event_types := by
  unfold batchInsertOne
  obtain ⟨h1, h2, h3, h4, _⟩ := detectDuplicates_core
    { st with
        submissions := st.submissions ++ [mkBatchSubmission st e username today],
        nextSubmissionId := st.nextSubmissionId + 1,
        activity_log := st.activity_log ++ [⟨"submission_created", username⟩] }
    now st.nextSubmissionId threshold
  exact ⟨h1, h2, h3, h4⟩

theorem validateBatchEvent_congr (st1 st2 : DBState) (e : BatchEvent)
    (horg : st1.organizers = st2.organizers)
    (hen : st1.event_names = st2.event_names)
    (het : st1.event_types = st2.event_types) :
    validateBatchEvent st1 e = validateBatchEvent st2 e := by
  unfold validateBatchEvent
  rw [horg, hen, het]

theorem batchLoop_spec (username : String) (now today : Nat) (threshold : Rat) :
    ∀ (events : List BatchEvent) (i : Nat) (stA : DBState)
      (results : List (Nat × Nat)) (errors : List (Nat × String)),
      ((batchLoop username now today threshold events i stA results errors).2.2
          = errors ++ (List.enumFrom i events).filterMap
              (fun p => (validateBatchEvent stA p.2).map (fun m => (p.1, m))))
      ∧ ((batchLoop username now today threshold events i stA results errors).2.1.map
            Prod.fst
          = results.map Prod.fst
            ++ ((List.enumFrom i events).filter
                (fun p => (validateBatchEvent stA p.2).isNone)).map Prod.fst)
      ∧ ((batchLoop username now today threshold events i stA
            results errors).1.submissions.length
          = stA.submissions.length
            + (events.filter (fun ev => (validateBatchEvent stA ev).isNone)).length)
      ∧ (∀ s ∈ (batchLoop username now today threshold events i stA
            results errors).1.submissions,
          s ∈ stA.submissions ∨ (s.status = "pending" ∧ s.submitted_by = username)) := by
  intro events
  induction events with
  | nil =>
      intro i stA results errors
      refine ⟨by simp [batchLoop], by simp [batchLoop], by simp [batchLoop], ?_⟩
      intro s hs
      exact Or.inl hs
  | cons e rest ih =>
      intro i stA results errors
      have henum : List.enumFrom i (e :: rest) = (i, e) :: List.enumFrom (i + 1) rest :=
        rfl
      cases hval : validateBatchEvent stA e with
      | some msg =>
          have hred : batchLoop username now today threshold (e :: rest) i stA
                results errors
              = batchLoop username now today threshold rest (i + 1) stA results
                  (errors ++ [(i, msg)]) := by
            simp only [batchLoop]
            rw [hval]
          obtain ⟨ih1, ih2, ih3, ih4⟩ := ih (i + 1) stA results (errors ++ [(i, msg)])
          rw [hred]
          refine ⟨?_, ?_, ?_, ih4⟩
          · rw [ih1, henum, List.filterMap_cons]
            simp only [hval, Option.map_some']
            rw [List.append_assoc]
            rfl
          · rw [ih2, henum]
            rw [List.filter_cons_of_neg (by simp [hval])]
          · rw [ih3]
            rw [List.filter_cons_of_neg (by simp [hval])]
      | none =>
          have hred : batchLoop username now today threshold (e :: rest) i stA
                results errors
              = batchLoop username now today threshold rest (i + 1)
                  (batchInsertOne stA e username now today threshold)
                  (results ++ [(i, stA.nextSubmissionId)]) errors := by
            simp only [batchLoop]
            rw [hval]
          obtain ⟨hb1, hb2, hb3, hb4⟩ := batchInsertOne_spec stA e username now today
            threshold
          obtain ⟨ih1, ih2, ih3, ih4⟩ := ih (i + 1)
            (batchInsertOne stA e username now today threshold)
            (results ++ [(i, stA.nextSubmissionId)]) errors
          have hcongr : ∀ ev, validateBatchEvent
                (batchInsertOne stA e username now today threshold) ev
              = validateBatchEvent stA ev :=
            fun ev => validateBatchEvent_congr _ _ ev hb2 hb3 hb4
          have hfunMap : (fun p : Nat × BatchEvent =>
                (validateBatchEvent (batchInsertOne stA e username now today threshold)
                  p.2).map (fun m => (p.1, m)))
              = (fun p : Nat × BatchEvent =>
                (validateBatchEvent stA p.2).map (fun m => (p.1, m))) := by
            funext p
            rw [hcongr]
          have hfunFil : (fun p : Nat × BatchEvent =>
                (validateBatchEvent (batchInsertOne stA e username now today threshold)
                  p.2).isNone)
              = (fun p : Nat × BatchEvent => (validateBatchEvent stA p.2).isNone) := by
            funext p
            rw [hcongr]
          have hfunEv : (fun ev : BatchEvent =>
                (validateBatchEvent (batchInsertOne stA e username now today threshold)
                  ev).isNone)
              = (fun ev : BatchEvent => (validateBatchEvent stA ev).isNone) := by
            funext ev
            rw [hcongr]
          rw [hred]
          refine ⟨?_, ?_, ?_, ?_⟩
          · rw [ih1, hfunMap, henum, List.filterMap_cons]
            simp only [hval, Option.map_none']
          · rw [ih2, hfunFil, henum]
            rw [List.filter_cons_of_pos (by simp [hval])]
            simp [List.map_append]
          · rw [ih3, hfunEv, hb1, List.length_append]
            rw [List.filter_cons_of_pos (by simp [hval])]
            simp [List.length_cons]
            omega
          · intro s hs
            rcases ih4 s hs with hold | hnew
            · rw [hb1] at hold
              rw [List.mem_append] at hold
              rcases hold with hold | hold
              · exact Or.inl hold
              · rw [List.mem_singleton] at hold
                subst hold
                exact Or.inr ⟨rfl, rfl⟩
            · exact Or.inr hnew

/-- C10: the batch endpoint validates and inserts each event
independently: the reported errors are exactly the per-index validation
failures, every valid event is inserted (as a pending submission of the
requesting counsellor) even when other events of the same request fail,
and the `ok` flag is true exactly when no event failed. -/
theorem claim10_batch_independent (st : DBState) (events : List BatchEvent)
    (username : String) (now today : Nat) (threshold : Rat)
    (hne : events.isEmpty = false) :
    (batchCreate st events username now today threshold
        = Except.ok
          ⟨(batchLoop username now today threshold events 0 st [] []).2.2.isEmpty,
            (batchLoop username now today threshold events 0 st [] []).2.1.length,
            (batchLoop username now today threshold events 0 st [] []).2.2.length,
            (batchLoop username now today threshold events 0 st [] []).2.1,
            (batchLoop username now today threshold events 0 st [] []).2.2,
            (batchLoop username now today threshold events 0 st [] []).1⟩)
      ∧ ((batchLoop username now today threshold events 0 st [] []).2.2
          = events.enum.filterMap
              (fun p => (validateBatchEvent st p.2).map (fun m => (p.1, m))))
      ∧ ((batchLoop username now today threshold events 0 st [] []).2.1.map Prod.fst
          = (events.enum.filter
              (fun p => (validateBatchEvent st p.2).isNone)).map Prod.fst)
      ∧ ((batchLoop username now today threshold events 0 st [] []).1.submissions.length
          = st.submissions.length
            + (events.filter (fun ev => (validateBatchEvent st ev).isNone)).length)
      ∧ (∀ s ∈ (batchLoop username now today threshold events 0 st [] []).1.submissions,
          s ∈ st.submissions ∨ (s.status = "pending" ∧ s.submitted_by = username))
      ∧ ((batchLoop username now today threshold events 0 st [] []).2.2.isEmpty = true
          ↔ ∀ e ∈ events, validateBatchEvent st e = Option.none) := by
  obtain ⟨h1, h2, h3, h4⟩ := batchLoop_spec username now today threshold events 0 st [] []
  have henum : List.enumFrom 0 events = events.enum := rfl
  rw [henum] at h1 h2
  rw [List.nil_append] at h1
  refine ⟨?_, h1, by simpa using h2, h3, h4, ?_⟩
  · unfold batchCreate
    rw [hne]
    rfl
  · rw [h1]
    rw [List.isEmpty_iff]
    rw [List.filterMap_eq_nil_iff]
    constructor
    · intro h e he
      rw [← List.enum_map_snd events] at he
      obtain ⟨p, hp, rfl⟩ := List.mem_map.mp he
      have := h p hp
      rwa [Option.map_eq_none'] at this
    · intro h p hp
      rw [Option.map_eq_none']
      exact h p.2 (by rw [← List.enum_map_snd events]; exact List.mem_map_of_mem Prod.snd hp)

/-- Witness for C10: a batch of one valid event, one with reversed dates
and one with an unknown preset against the concrete preset store. -/
theorem claim10_witness :
    batchEvents.isEmpty = false
      ∧ ((batchCreate batchState batchEvents "jade" 100 0 (7 / 10)
          = Except.ok
            ⟨(batchLoop "jade" 100 0 (7 / 10) batchEvents 0 batchState [] []).2.2.isEmpty,
              (batchLoop "jade" 100 0 (7 / 10) batchEvents 0 batchState [] []).2.1.length,
              (batchLoop "jade" 100 0 (7 / 10) batchEvents 0 batchState [] []).2.2.length,
              (batchLoop "jade" 100 0 (7 / 10) batchEvents 0 batchState [] []).2.1,
              (batchLoop "jade" 100 0 (7 / 10) batchEvents 0 batchState [] []).2.2,
              (batchLoop "jade" 100 0 (7 / 10) batchEvents 0 batchState [] []).1⟩)
        ∧ ((batchLoop "jade" 100 0 (7 / 10) batchEvents 0 batchState [] []).2.2
            = batchEvents.enum.filterMap
                (fun p => (validateBatchEvent batchState p.2).map (fun m => (p.1, m))))
        ∧ ((batchLoop "jade" 100 0 (7 / 10) batchEvents 0 batchState [] []).2.1.map
              Prod.fst
            = (batchEvents.enum.filter
                (fun p => (validateBatchEvent batchState p.2).isNone)).map Prod.fst)
        ∧ ((batchLoop "jade" 100 0 (7 / 10) batchEvents 0
              batchState [] []).1.submissions.length
            = batchState.submissions.length
              + (batchEvents.filter
                  (fun ev => (validateBatchEvent batchState ev).isNone)).length)
        ∧ (∀ s ∈ (batchLoop "jade" 100 0 (7 / 10) batchEvents 0
              batchState [] []).1.submissions,
            s ∈ batchState.submissions
              ∨ (s.status = "pending" ∧ s.submitted_by = "jade"))
        ∧ ((batchLoop "jade" 100 0 (7 / 10) batchEvents 0
              batchState [] []).2.2.isEmpty = true
            ↔ ∀ e ∈ batchEvents, validateBatchEvent batchState e = Option.none)) :=
  ⟨by decide,
    claim10_batch_independent batchState batchEvents "jade" 100 0 (7 / 10) (by decide)⟩

end IEMS
